import Mathlib

/-!
Verification of the ai-ocr repository against its natural-language
specification.  The Python sources are shallowly embedded as Lean
definitions: pure functions become Lean functions, raising code returns
`Except String`, and in-place dict mutation becomes explicit value passing.
External library boundaries (pandas dataframes, the MinIO/DB clients, the
jsonschema checker) are modelled as explicit inputs or oracle parameters.
-/

/- ## JSON-like values (Python dict/list/str/int/float/bool/None) -/

/-- Model of a Python float as produced by `float(...)`: a finite rational,
an infinity, or NaN.  No float arithmetic is performed anywhere in the
verified code paths; only parsing and order comparisons against 0 and 24. -/
inductive PFloat where
  | finite (q : ℚ)
  | inf (neg : Bool)
  | nan
deriving Repr, DecidableEq

/-- A Python value as it appears in the parsed/extracted JSON-like data. -/
inductive Value where
  | null
  | bool (b : Bool)
  | int (n : ℤ)
  | num (f : PFloat)
  | str (s : String)
  | list (xs : List Value)
  | dict (fields : List (String × Value))
deriving Repr

instance : Inhabited Value := ⟨Value.null⟩

/-- First-occurrence association lookup (Python `dict` access). -/
def alook {α : Type} : List (String × α) → String → Option α
  | [], _ => none
  | (k, v) :: rest, key => if k == key then some v else alook rest key

/-- Python `d[k] = v`: replace the first binding of `k` in place, else append. -/
def aset : List (String × Value) → String → Value → List (String × Value)
  | [], k, v => [(k, v)]
  | (k', v') :: rest, k, v =>
    if k' == k then (k, v) :: rest else (k', v') :: aset rest k v

/-- Python truthiness (`bool(x)`). -/
def Value.truthy : Value → Bool
  | .null => false
  | .bool b => b
  | .int n => n != 0
  | .num (.finite q) => q != 0
  | .num _ => true
  | .str s => s != ""
  | .list xs => !xs.isEmpty
  | .dict d => !d.isEmpty

def Value.isList : Value → Bool
  | .list _ => true
  | _ => false

def Value.isDict : Value → Bool
  | .dict _ => true
  | _ => false

/-- Python `isinstance(x, (int, float))`; note `bool` is a subclass of `int`. -/
def Value.isNumInst : Value → Bool
  | .int _ => true
  | .num _ => true
  | .bool _ => true
  | _ => false

/- ## Small string helpers used by the embedded code -/

/-- ASCII lowering (the Python inputs in scope are ASCII). -/
def lowerCh (c : Char) : Char :=
  let n := c.toNat
  if 65 ≤ n && n ≤ 90 then Char.ofNat (n + 32) else c

def toLowerStr (s : String) : String := ⟨s.toList.map lowerCh⟩

/-- `pre` is an initial segment of the second list. -/
def leadMatch : List Char → List Char → Bool
  | [], _ => true
  | _ :: _, [] => false
  | a :: as, b :: bs => a == b && leadMatch as bs

/-- `pat` occurs as a contiguous run inside the list. -/
def subMatch (pat : List Char) : List Char → Bool
  | [] => leadMatch pat []
  | b :: bs => leadMatch pat (b :: bs) || subMatch pat bs

/-- Python `pat in s` on strings (substring containment). -/
def strContains (s pat : String) : Bool := subMatch pat.toList s.toList

def isDigitCh (c : Char) : Bool := c.isDigit

def allDigits (cs : List Char) : Bool := cs.all isDigitCh

/-- Decimal digit character, total on `Nat` (callers pass values `< 10`). -/
def digitChar : Nat → Char
  | 0 => '0'
  | 1 => '1'
  | 2 => '2'
  | 3 => '3'
  | 4 => '4'
  | 5 => '5'
  | 6 => '6'
  | 7 => '7'
  | 8 => '8'
  | _ => '9'

/-- Numeric value of a digit character. -/
def digitVal (c : Char) : Nat := c.toNat - 48

def digitsToNat (cs : List Char) : Nat := cs.foldl (fun acc c => acc * 10 + digitVal c) 0

/- ## A model of Python `float(str)` -/

def isWsCh (c : Char) : Bool := c == ' ' || c == '\t' || c == '\n' || c == '\r'

def splitSign : List Char → (Bool × List Char)
  | '-' :: rest => (true, rest)
  | '+' :: rest => (false, rest)
  | cs => (false, cs)

/-- digits `[. digits]` or `. digits`, value as an exact rational. -/
def parseMantissa (cs : List Char) : Option ℚ :=
  match cs.splitOn '.' with
  | [ds] => if !ds.isEmpty && allDigits ds then some (digitsToNat ds : ℚ) else none
  | [ip, fp] =>
    if !(ip.isEmpty && fp.isEmpty) && allDigits ip && allDigits fp then
      some ((digitsToNat (ip ++ fp) : ℚ) / (10 : ℚ) ^ fp.length)
    else none
  | _ => none

def parseDecExp (cs : List Char) : Option ℚ :=
  match (cs.map lowerCh).splitOn 'e' with
  | [m] => parseMantissa m
  | [m, ex] =>
    match parseMantissa m with
    | none => none
    | some q =>
      let (negE, eds) := splitSign ex
      if !eds.isEmpty && allDigits eds then
        some (if negE then q / (10 : ℚ) ^ digitsToNat eds else q * (10 : ℚ) ^ digitsToNat eds)
      else none
  | _ => none

/-- Model of Python `float(s)` (underscore digit separators are not modelled;
no input in the verified properties uses them). -/
def pyFloat (s : String) : Option PFloat :=
  let cs := ((s.toList.dropWhile isWsCh).reverse.dropWhile isWsCh).reverse
  let (neg, body) := splitSign cs
  let lower := body.map lowerCh
  if lower == "inf".toList || lower == "infinity".toList then some (.inf neg)
  else if lower == "nan".toList then some .nan
  else
    match parseDecExp body with
    | some q => some (.finite (if neg then -q else q))
    | none => none

def PFloat.ge0 : PFloat → Bool
  | .finite q => decide (0 ≤ q)
  | .inf neg => !neg
  | .nan => false

def PFloat.le24 : PFloat → Bool
  | .finite q => decide (q ≤ 24)
  | .inf neg => neg
  | .nan => false

/- ## A model of Python `str(...)` / `repr(...)` -/

/-- Single-quote character, written via its code point. -/
def quoteCh : Char := Char.ofNat 39

/-- Rendering of a float value; a deterministic stand-in for CPython float
repr (the verified properties never inspect the rendered text of a float). -/
def PFloat.render : PFloat → String
  | .finite q =>
    let n := q.num
    let d := q.den
    if d == 1 then s!"{n}.0" else s!"{n}/{d}"
  | .inf neg => if neg then "-inf" else "inf"
  | .nan => "nan"

mutual

/-- Python `repr(v)` (model; containers recurse, strings are quoted). -/
def pyRepr : Value → String
  | .null => "None"
  | .bool true => "True"
  | .bool false => "False"
  | .int n => s!"{n}"
  | .num f => f.render
  | .str s => String.singleton quoteCh ++ s ++ String.singleton quoteCh
  | .list xs => "[" ++ pyReprL xs ++ "]"
  | .dict d => "\x7b" ++ pyReprD d ++ "\x7d"

def pyReprL : List Value → String
  | [] => ""
  | [v] => pyRepr v
  | v :: rest => pyRepr v ++ ", " ++ pyReprL rest

def pyReprD : List (String × Value) → String
  | [] => ""
  | [(k, v)] => String.singleton quoteCh ++ k ++ String.singleton quoteCh ++ ": " ++ pyRepr v
  | (k, v) :: rest =>
    String.singleton quoteCh ++ k ++ String.singleton quoteCh ++ ": " ++ pyRepr v ++ ", " ++ pyReprD rest

end

/-- Python `str(v)`: identity on strings, `repr`-like otherwise. -/
def pyStr : Value → String
  | .str s => s
  | v => pyRepr v

/- ## The pandas boundary

A `DataFrame` is what `pd.read_excel`/`pd.read_csv` hands back for one
sheet: the column labels and the data rows (the header row is consumed by
pandas and is not part of `rows`). -/

structure DataFrame where
  columns : List String
  rows : List (List Value)
deriving Repr

/-- pandas `df.empty` (`True` iff any axis has length 0). -/
def DataFrame.emptyB (df : DataFrame) : Bool := df.rows.isEmpty || df.columns.isEmpty

/-- pandas `df.to_dict(orient="records")`. -/
def DataFrame.records (df : DataFrame) : List (List (String × Value)) :=
  df.rows.map (fun r => df.columns.zip r)

/-- One sheet of `pd.ExcelFile`: its name and the outcome of
`pd.read_excel(xlsx, sheet_name=name)` (`.error` = the read raises). -/
abbrev SheetRead : Type := String × Except String DataFrame

/- ## ai-ocr-sample-main/src/processor/app/parsers/excel_parser.py -/

namespace ProcExcelParser

/-- One entry of `result["sheets"]` built by `ExcelParser._parse_excel`. -/
structure Sheet where
  empty : Bool
  rows : Nat
  columns : Nat
  columnNames : Option (List String)
  data : List (List (String × Value))
deriving Repr

/-- The per-sheet dict `_parse_excel` stores for a successfully read sheet. -/
def mkSheet (df : DataFrame) : Sheet :=
  if df.emptyB then
    { empty := true, rows := 0, columns := 0, columnNames := none, data := [] }
  else
    { empty := false, rows := df.rows.length, columns := df.columns.length,
      columnNames := some df.columns, data := df.records }

/-- `ExcelParser._parse_excel` sheet loop: any sheet read failure is logged
and **re-raised** (the enclosing `try` only logs), so the first failing
sheet aborts the whole parse. -/
def parseExcelSheets : List SheetRead → Except String (List (String × Sheet))
  | [] => .ok []
  | (_, .error e) :: _ => .error e
  | (name, .ok df) :: rest =>
    match parseExcelSheets rest with
    | .error e => .error e
    | .ok tail => .ok ((name, mkSheet df) :: tail)

end ProcExcelParser

/- ## src/api/app/parsers/excel_parser.py -/

namespace ApiExcelParser

/-- The dict built by `ExcelParser._dataframe_to_dict`.  The per-column
dtype clean-up pandas pipeline is the `clean` parameter (it maps the frame
column-wise and never changes the row count used for `shape`, which the
source computes from the *original* `df`); column statistics are kept as
the column labels. -/
structure Sheet where
  data : List (List (String × Value))
  columns : List String
  shapeRows : Nat
  shapeCols : Nat
deriving Repr

def dataframeToDict (clean : DataFrame → DataFrame) (df : DataFrame) : Sheet :=
  { data := (clean df).records
    columns := df.columns
    shapeRows := df.rows.length
    shapeCols := df.columns.length }

/-- `ExcelParser.parse` sheet loop for xlsx/xls: a per-sheet read failure is
caught, logged and skipped (`continue`); a successfully read sheet is kept
only when `df.shape[0] > 0 and df.shape[1] > 0`. -/
def parseSheets (clean : DataFrame → DataFrame) : List SheetRead → List (String × Sheet)
  | [] => []
  | (_, .error _) :: rest => parseSheets clean rest
  | (name, .ok df) :: rest =>
    if df.rows.length > 0 && df.columns.length > 0 then
      (name, dataframeToDict clean df) :: parseSheets clean rest
    else
      parseSheets clean rest

end ApiExcelParser

/- ## ai-ocr-sample-main/src/processor/app/main.py — process_document

The orchestrator is modelled as the sequence of externally visible effects
it performs.  `db_client.update_job_status` / `update_document_status` /
`create_extraction` and `get_document` follow
src/processor/app/db_client.py, which catches every exception internally
and returns a boolean / `None`, so none of those calls can raise. -/

/-- One externally visible effect of `process_document`. -/
inductive Event where
  | updJob (status : String) (progress : Option Nat) (error : Option String)
  | mkTmp (path : String)
  | rmTmp (path : String)
  | updDoc (status : String)
  | createExtraction
deriving Repr, DecidableEq

/-- A stored document row, as returned by `db_client.get_document`. -/
structure DocRow where
  filename : String
  filePath : String
deriving Repr

/-- Outcomes of the external calls one `process_document` run performs.
`jobStatus` is the job's current status in the database (what
`db_client.get_job` would report, e.g. `"canceled"` after a cancel call);
the orchestrator is free to consult it. -/
structure Env where
  jobStatus : String
  document : Option DocRow
  minioReady : Bool
  tmpPath : String
  fgetOk : Bool
  parseRes : Except String Unit
  extractRes : Except String Unit
  createOk : Bool
deriving Repr

/-- `MinioClient.download_document`: `tempfile.mkstemp` creates the local
file, then `fget_object` fills it; any failure is caught and `None` is
returned (the already created temp file is not deleted on that path). -/
def downloadDocument (env : Env) : List Event × Option String :=
  if !env.minioReady then ([], none)
  else ([.mkTmp env.tmpPath], if env.fgetOk then some env.tmpPath else none)

/-- `os.path.splitext(filename)[1].lower()[1:]` (leading dots of a bare
dotfile name are not an extension). -/
def extOf (filename : String) : String :=
  let base := filename.toList.dropWhile (· == '.')
  match (base.reverse.splitOn '.') with
  | [_] => ""
  | revExt :: _ :: _ => toLowerStr ⟨revExt.reverse⟩
  | [] => ""

/-- The body of the inner `try` of `process_document` (parse → extract →
validate → persist), starting after the progress-20 update; returns the
events it emits.  `SchemaValidator.validate` catches internally and never
raises, and `create_extraction` returns a boolean that is not checked. -/
def processInner (env : Env) (doc : DocRow) : List Event :=
  let ext := extOf doc.filename
  if ext == "xlsx" || ext == "xls" || ext == "csv" then
    match env.parseRes with
    | .error e => [.updJob "failed" none (some s!"Processing error: {e}")]
    | .ok _ =>
      [.updJob "processing" (some 40) none] ++
      match env.extractRes with
      | .error e => [.updJob "failed" none (some s!"Processing error: {e}")]
      | .ok _ =>
        [.updJob "processing" (some 70) none] ++
        [.updJob "processing" (some 90) none] ++
        [.createExtraction, .updDoc "processed", .updJob "completed" (some 100) none]
  else
    [.updJob "failed" none (some s!"Unsupported file type: {ext}")]

/-- `process_document(job_id, document_id)` as its emitted effect trace. -/
def processDocument (env : Env) : List Event :=
  [.updJob "processing" (some 10) none] ++
  match env.document with
  | none => [.updJob "failed" none (some "Document not found")]
  | some doc =>
    let (dlEvents, pathOpt) := downloadDocument env
    dlEvents ++
    match pathOpt with
    | none => [.updJob "failed" none (some "Failed to download document")]
    | some path =>
      [.updJob "processing" (some 20) none] ++
      processInner env doc ++
      [.rmTmp path]

/-- The job row's final (status, error) after replaying the `updJob` writes
of a trace, mirroring the SQL `UPDATE` in `db_client.update_job_status`
(`error = COALESCE(:error, error)` keeps the old error when none given). -/
def lastJobWrite (events : List Event) : Option (String × Option String) :=
  events.foldl
    (fun acc e =>
      match e with
      | .updJob s _ err =>
        match acc with
        | some (_, old) => some (s, match err with | some m => some m | none => old)
        | none => some (s, err)
      | _ => acc)
    none

/-- All `updJob` progress values recorded by a trace, in order. -/
def progressWrites (events : List Event) : List Nat :=
  events.filterMap (fun e => match e with | .updJob _ (some p) _ => some p | _ => none)

/-- The env succeeds end to end (document found, download ok, supported
extension, parse and extract succeed). -/
def envSucceeds (env : Env) : Bool :=
  match env.document with
  | none => false
  | some doc =>
    env.minioReady && env.fgetOk &&
    (let ext := extOf doc.filename
     ext == "xlsx" || ext == "xls" || ext == "csv") &&
    env.parseRes.isOk && env.extractRes.isOk

/- ## Cancel endpoints -/

/-- src/api/app/api/endpoints/jobs.py `cancel_processing_job` response. -/
inductive CancelResp where
  | httpError (code : Nat)
  | canceled
  | notCanceled
deriving Repr, DecidableEq

/-- `cancel_processing_job(job_id)`: input is the stored job's status (or
`none` when the job does not exist); output is the job's status after the
call together with the response.  `cancel_job` sets the status to
`"canceled"`; the 400 branch raises before any write. -/
def cancelProcessingJob (job : Option String) : Option String × CancelResp :=
  match job with
  | none => (none, .httpError 404)
  | some st =>
    if !(st == "pending" || st == "processing") then (some st, .httpError 400)
    else (some "canceled", .canceled)

/-- ai-ocr-sample-main/src/processor/app/main.py `api_cancel_processing`:
same guard, but a terminal job yields a `not_canceled` body instead of an
HTTP error; again no write happens on the rejected path. -/
def apiCancelProcessing (job : Option String) : Option String × CancelResp :=
  match job with
  | none => (none, .httpError 404)
  | some st =>
    if !(st == "pending" || st == "processing") then (some st, .notCanceled)
    else (some "canceled", .canceled)

/- ## ai-ocr-sample-main/src/processor/app/validators/schema_validator.py
     — SchemaValidator._normalize_data -/

namespace SchemaValidator

/-- `re.match(r'^\d{4}-\d{2}-\d{2}$', s)` as a boolean. -/
def isoMatch (s : String) : Bool :=
  match s.toList with
  | [a, b, c, d, s1, e, f, s2, g, h] =>
    isDigitCh a && isDigitCh b && isDigitCh c && isDigitCh d && s1 == '-' &&
    isDigitCh e && isDigitCh f && s2 == '-' && isDigitCh g && isDigitCh h
  | _ => false

def isLeapYear (y : Nat) : Bool := y % 4 == 0 && (y % 100 != 0 || y % 400 == 0)

def daysInMonth (y m : Nat) : Nat :=
  if m == 2 then (if isLeapYear y then 29 else 28)
  else if m == 4 || m == 6 || m == 9 || m == 11 then 30
  else 31

/-- `strptime` `%m`/`%d` field: one or two digits. -/
def parseField2 (cs : List Char) : Option Nat :=
  if (cs.length == 1 || cs.length == 2) && allDigits cs then some (digitsToNat cs) else none

/-- `strptime` `%Y` field: exactly four digits (CPython `TimeRE`). -/
def parseYear4 (cs : List Char) : Option Nat :=
  if cs.length == 4 && allDigits cs then some (digitsToNat cs) else none

/-- `datetime.strptime(s, "%m/%d/%Y")` (or `"%d.%m.%Y"` when `mdy` is
false), returning `(year, month, day)`; `none` models `ValueError`.  The
`datetime` constructor bounds the month, the day against the month length,
and requires `MINYEAR = 1`. -/
def strptimeDate (mdy : Bool) (sep : Char) (s : String) : Option (Nat × Nat × Nat) :=
  match s.toList.splitOn sep with
  | [p1, p2, p3] => do
    let a ← parseField2 p1
    let b ← parseField2 p2
    let y ← parseYear4 p3
    let m := if mdy then a else b
    let d := if mdy then b else a
    if 1 ≤ y && 1 ≤ m && m ≤ 12 && 1 ≤ d && d ≤ daysInMonth y m then some (y, m, d)
    else none
  | _ => none

def pad2 (n : Nat) : List Char := [digitChar (n / 10), digitChar (n % 10)]

def pad4 (n : Nat) : List Char :=
  [digitChar (n / 1000 % 10), digitChar (n / 100 % 10), digitChar (n / 10 % 10), digitChar (n % 10)]

/-- `date_obj.strftime("%Y-%m-%d")` (zero-padded fields). -/
def formatISO (y m d : Nat) : String :=
  ⟨pad4 y ++ '-' :: pad2 m ++ '-' :: pad2 d⟩

/-- `re.sub(r'[^\d.\-]', '', s)`: keep only digits, `.` and `-`. -/
def cleanAmount (s : String) : String :=
  ⟨s.toList.filter (fun c => isDigitCh c || c == '.' || c == '-')⟩

/-- The `total_amount` branch of `_normalize_data` for the invoice schema. -/
def amountStep (data : List (String × Value)) : List (String × Value) :=
  match alook data "total_amount" with
  | none => data
  | some v =>
    if v.isNumInst then data
    else
      match pyFloat (cleanAmount (pyStr v)) with
      | some f => aset data "total_amount" (.num f)
      | none => data

/-- The `date` branch of `_normalize_data` for the invoice schema: a value
whose `str(...)` already matches ISO is left alone; otherwise
`"%m/%d/%Y"` then `"%d.%m.%Y"` are tried (a non-string raises `TypeError`,
swallowed by the enclosing `except Exception: pass`). -/
def dateStep (data : List (String × Value)) : List (String × Value) :=
  match alook data "date" with
  | none => data
  | some v =>
    if isoMatch (pyStr v) then data
    else
      match v with
      | .str s =>
        match strptimeDate true '/' s with
        | some (y, m, d) => aset data "date" (.str (formatISO y m d))
        | none =>
          match strptimeDate false '.' s with
          | some (y, m, d) => aset data "date" (.str (formatISO y m d))
          | none => data
      | _ => data

/-- `SchemaValidator._normalize_data(data, schema_type)`. -/
def normalizeData (data : List (String × Value)) (schemaType : String) : List (String × Value) :=
  if schemaType == "invoice" then dateStep (amountStep data) else data

end SchemaValidator

/- ## Python operation helpers that can raise (`Except String` = exception) -/

/-- Single-quote as a string, for building messages that quote field names. -/
def sqS : String := String.singleton quoteCh

/-- `v.get(k, default)`: raises `AttributeError` unless `v` is a dict. -/
def pyGetD (v : Value) (k : String) (dflt : Value) : Except String Value :=
  match v with
  | .dict d => .ok ((alook d k).getD dflt)
  | _ => .error "AttributeError: get"

/-- `v.get(k)` (default `None`, reported as `none`). -/
def pyGetOpt (v : Value) (k : String) : Except String (Option Value) :=
  match v with
  | .dict d => .ok (match alook d k with | some .null => none | o => o)
  | _ => .error "AttributeError: get"

/-- `for x in v`: lists yield elements, strings their characters, dicts
their keys; other values raise `TypeError`. -/
def iterValue (v : Value) : Except String (List Value) :=
  match v with
  | .list xs => .ok xs
  | .str s => .ok (s.toList.map (fun c => .str (String.singleton c)))
  | .dict d => .ok (d.map (fun kv => .str kv.1))
  | _ => .error "TypeError: not iterable"

/-- `v.lower()`: strings only. -/
def pyLower (v : Value) : Except String String :=
  match v with
  | .str s => .ok (toLowerStr s)
  | _ => .error "AttributeError: lower"

def valueEqStr : Value → String → Bool
  | .str s, k => s == k
  | _, _ => false

/-- `k in v` for a string `k`. -/
def pyContainsStr (v : Value) (k : String) : Except String Bool :=
  match v with
  | .dict d => .ok (alook d k).isSome
  | .list xs => .ok (xs.any (valueEqStr · k))
  | .str s => .ok (strContains s k)
  | _ => .error "TypeError: not a container"

/-- `v[k]` for a string key. -/
def pySubscriptStr (v : Value) (k : String) : Except String Value :=
  match v with
  | .dict d => match alook d k with | some x => .ok x | none => .error "KeyError"
  | _ => .error "TypeError: subscript"

/-- `v[0]`. -/
def pyIndex0 (v : Value) : Except String Value :=
  match v with
  | .list (x :: _) => .ok x
  | .list [] => .error "IndexError"
  | .str s =>
    match s.toList with
    | c :: _ => .ok (.str (String.singleton c))
    | [] => .error "IndexError"
  | _ => .error "TypeError: subscript"

/-- `len(v)`. -/
def pyLen (v : Value) : Except String Nat :=
  match v with
  | .list xs => .ok xs.length
  | .str s => .ok s.length
  | .dict d => .ok d.length
  | _ => .error "TypeError: len"

/-- `set(row.keys())`, kept as the key list (set equality is tested by
mutual containment, so duplicates are irrelevant). -/
def keySet (v : Value) : Except String (List String) :=
  match v with
  | .dict d => .ok (d.map Prod.fst)
  | _ => .error "AttributeError: keys"

/-- Python `set` equality on string sets. -/
def setEqStr (a b : List String) : Bool :=
  a.all (b.contains ·) && b.all (a.contains ·)

/-- `s.replace(',', '')`. -/
def stripCommas (s : String) : String := ⟨s.toList.filter (· != ',')⟩

/- ## src/api/app/validators/excel_validator.py — ExcelValidator -/

namespace ExcelValidator

def SUPPORTED_DATA_TYPES : List String :=
  ["excel_table", "excel_form", "excel_report",
   "excel_financial", "excel_inventory", "excel_timesheet"]

structure TypePatterns where
  headers : List String
  sheetNames : List String
deriving Repr

/-- `self.data_type_patterns`, in dict insertion order. -/
def dataTypePatterns : List (String × TypePatterns) :=
  [("excel_table",
    { headers := ["id", "name", "code", "category", "amount", "quantity", "date", "status"],
      sheetNames := ["data", "table", "list", "records", "items"] }),
   ("excel_form",
    { headers := ["field", "value", "label", "input", "form"],
      sheetNames := ["form", "input", "entry", "fields"] }),
   ("excel_financial",
    { headers := ["account", "amount", "balance", "credit", "debit", "revenue", "expense"],
      sheetNames := ["finance", "financial", "accounts", "ledger", "balance", "p&l"] }),
   ("excel_inventory",
    { headers := ["sku", "inventory", "stock", "quantity", "location", "warehouse"],
      sheetNames := ["inventory", "stock", "products", "items", "warehouse"] }),
   ("excel_timesheet",
    { headers := ["hours", "date", "day", "time", "project", "task", "employee"],
      sheetNames := ["timesheet", "hours", "time", "attendance", "schedule"] })]

/-- The sheet-name and header extraction at the top of `_detect_data_type`. -/
def extractNamesHeaders (d : List (String × Value)) :
    Except String (List String × List String) := do
  let tables := (alook d "tables").getD (.list [])
  let tablesL ← iterValue tables
  let sheetNames ← tablesL.mapM (fun t => do pyLower (← pyGetD t "sheet_name" (.str "")))
  let headerLists ← tablesL.mapM (fun t => do
    let hs ← pyGetD t "headers" (.list [])
    let hsL ← iterValue hs
    hsL.mapM pyLower)
  pure (sheetNames, headerLists.flatten)

/-- +2 per (sheet name, pattern) containment pair, +1 per (header, pattern)
containment pair. -/
def scoreType (sheetNames headers : List String) (pats : TypePatterns) : Nat :=
  2 * (sheetNames.map (fun sn => (pats.sheetNames.filter (fun p => strContains sn p)).length)).sum +
  (headers.map (fun h => (pats.headers.filter (fun p => strContains h p)).length)).sum

def typeScores (ns hs : List String) : List (String × Nat) :=
  dataTypePatterns.map (fun tp => (tp.1, scoreType ns hs tp.2))

/-- `max(type_scores.values())` followed by the first type attaining it,
defaulting to `"excel_table"` when no score is positive. -/
def pickDetected (scores : List (String × Nat)) : String :=
  if scores.isEmpty then "excel_table"
  else
    let maxScore := (scores.map Prod.snd).foldl max 0
    if maxScore > 0 then
      match scores.find? (fun ts => ts.2 == maxScore) with
      | some ts => ts.1
      | none => "excel_table"
    else "excel_table"

/-- `ExcelValidator._detect_data_type(data)` (argument: the dict fields of
`data`; a non-dict would already have raised in the caller). -/
def detectDataType (d : List (String × Value)) : Except String String := do
  let (ns, hs) ← extractNamesHeaders d
  if (match alook d "fields" with | some v => v.isList | none => false) then
    pure "excel_form"
  else if (match alook d "sections" with | some v => v.isList | none => false) then
    pure "excel_report"
  else
    pure (pickDetected (typeScores ns hs))

/-- Modelled from the spec's words (§4.4): "score every registered type by
+2 per sheet-name-pattern match and +1 per header-keyword match against the
type's registered keyword table; pick the type with the highest non-zero
score; on a zero-score tie or no match, fall back to the generic default
type" — with no `fields`/`sections` short-circuit. -/
def specAutoDetect (ns hs : List String) : String :=
  pickDetected (typeScores ns hs)

end ExcelValidator

namespace ExcelValidator

/-- One entry of a tier's `checks` list. -/
structure Check where
  name : String
  passed : Bool
  message : Option String := none
  severity : Option String := none
  path : Option String := none
  schemaPath : Option String := none
deriving Repr, DecidableEq

/-- One entry of `validation_results["details"]`. -/
structure Tier where
  valid : Bool
  checks : List Check
deriving Repr, DecidableEq

/-- The initial `{"valid": False, "checks": []}` tier. -/
def emptyTier : Tier := { valid := false, checks := [] }

/-- The `validation_results` dict of `ExcelValidator.validate`. -/
structure VResults where
  valid : Bool
  level : String
  dataType : String
  errors : List String
  warnings : List String
  basic : Tier
  schema : Tier
  custom : Tier
deriving Repr, DecidableEq

instance : Inhabited VResults :=
  ⟨{ valid := false, level := "", dataType := "", errors := [], warnings := [],
     basic := emptyTier, schema := emptyTier, custom := emptyTier }⟩

/-- A basic-tier check: `message` is only attached on failure. -/
def basicCheck (name : String) (passed : Bool) (failMsg : String) : Check :=
  { name := name, passed := passed, message := if passed then none else some failMsg }

/-- `jsonschema.validate(instance, schema)` is an external library call:
`none` = passes, `some e` = it raises `ValidationError e`. -/
structure SchemaErr where
  message : String
  path : String
  schemaPath : String

def SchemaOracle : Type := Value → Value → Option SchemaErr

/- `get_default_schema` literals. -/

def tablesItemsSchema : Value := .dict
  [("type", .str "object"),
   ("properties", .dict
     [("sheet_name", .dict [("type", .str "string")]),
      ("table_name", .dict [("type", .str "string")]),
      ("headers", .dict [("type", .str "array"), ("items", .dict [("type", .str "string")])]),
      ("data", .dict [("type", .str "array"),
        ("items", .dict [("type", .str "object"), ("additionalProperties", .bool true)])])]),
   ("required", .list [.str "sheet_name", .str "headers", .str "data"])]

def metadataSchema : Value := .dict
  [("type", .str "object"),
   ("properties", .dict
     [("document_type", .dict [("type", .str "string")]),
      ("extraction_mode", .dict [("type", .str "string")]),
      ("confidence_score", .dict [("type", .str "number")])])]

def defaultSchemaV : Value := .dict
  [("type", .str "object"),
   ("properties", .dict
     [("tables", .dict [("type", .str "array"), ("items", tablesItemsSchema)]),
      ("metadata", metadataSchema)]),
   ("required", .list [.str "tables", .str "metadata"])]

def fieldsSchema : Value := .dict
  [("type", .str "array"),
   ("items", .dict
     [("type", .str "object"),
      ("properties", .dict
        [("name", .dict [("type", .str "string")]),
         ("value", .dict [("type", .list [.str "string", .str "number", .str "boolean", .str "null"])]),
         ("confidence", .dict [("type", .str "number")])]),
      ("required", .list [.str "name", .str "value"])])]

def sectionsSchema : Value := .dict
  [("type", .str "array"),
   ("items", .dict
     [("type", .str "object"),
      ("properties", .dict
        [("title", .dict [("type", .str "string")]),
         ("content", .dict [("type", .str "string")]),
         ("tables", .dict [("type", .str "array"), ("items", tablesItemsSchema)])]),
      ("required", .list [.str "title"])])]

/-- `get_default_schema(data_type)`; the `.copy()` aliasing in the source is
per-call (the literal is rebuilt on each call), so each branch amounts to
the schema below. -/
def getDefaultSchema (dataType : String) : Except String Value :=
  if !SUPPORTED_DATA_TYPES.contains dataType then
    .error s!"Unsupported data type: {dataType}"
  else if dataType == "excel_form" then
    .ok (.dict
      [("type", .str "object"),
       ("properties", .dict
         [("tables", .dict [("type", .str "array"), ("items", tablesItemsSchema)]),
          ("metadata", metadataSchema),
          ("fields", fieldsSchema)]),
       ("required", .list [.str "fields", .str "metadata"])])
  else if dataType == "excel_report" then
    .ok (.dict
      [("type", .str "object"),
       ("properties", .dict
         [("tables", .dict [("type", .str "array"), ("items", tablesItemsSchema)]),
          ("metadata", metadataSchema),
          ("sections", sectionsSchema)]),
       ("required", .list [.str "tables", .str "metadata", .str "sections"])])
  else
    .ok defaultSchemaV

/-- `k in data and isinstance(data[k], list)`. -/
def keyIsListB (data : Value) (k : String) : Except String Bool := do
  let mem ← pyContainsStr data k
  if mem then Value.isList <$> pySubscriptStr data k else pure false

/-- `k in data and isinstance(data[k], dict)`. -/
def keyIsDictB (data : Value) (k : String) : Except String Bool := do
  let mem ← pyContainsStr data k
  if mem then Value.isDict <$> pySubscriptStr data k else pure false

/-- Basic check 4 (`excel_table` with a `tables` list): at least one table. -/
def someTablesChecks (data : Value) (dataType : String) (hasTables : Bool) :
    Except String (List Check) :=
  if dataType == "excel_table" && hasTables then do
    let tv ← pySubscriptStr data "tables"
    let n ← pyLen tv
    pure [basicCheck "has_some_tables" (n > 0) "No tables found in data"]
  else pure []

/-- Basic check 5 (`excel_form` only): `fields` must be a list. -/
def formFieldsCheck (data : Value) (dataType : String) : Except String (List Check) :=
  if dataType == "excel_form" then do
    let hasFields ← keyIsListB data "fields"
    pure [basicCheck "has_fields" hasFields
      ("Missing or invalid " ++ sqS ++ "fields" ++ sqS ++ " field for form data (must be a list)")]
  else pure []

/-- `_run_basic_validation`, returning the basic tier together with the
errors and warnings it appends. -/
def runBasicValidation (data : Value) (dataType : String) :
    Except String (Tier × List String × List String) := do
  let c1 := basicCheck "data_structure" data.isDict "Data must be a dictionary"
  let hasTables ← keyIsListB data "tables"
  let c2 := basicCheck "has_tables" hasTables
    ("Missing or invalid " ++ sqS ++ "tables" ++ sqS ++ " field (must be a list)")
  let hasMetadata ← keyIsDictB data "metadata"
  let c3 := basicCheck "has_metadata" hasMetadata
    ("Missing or invalid " ++ sqS ++ "metadata" ++ sqS ++ " field (must be a dictionary)")
  let c4s ← someTablesChecks data dataType hasTables
  let c5s ← formFieldsCheck data dataType
  let checks := [c1, c2, c3] ++ c4s ++ c5s
  -- failed checks 1/2/3/5 feed `errors`, failed check 4 feeds `warnings`
  let errs := ([c1, c2, c3] ++ c5s).filterMap (fun c => if c.passed then none else c.message)
  let warns := c4s.filterMap (fun c => if c.passed then none else c.message)
  pure ({ valid := checks.all (·.passed), checks := checks }, errs, warns)

/-- `_run_schema_validation`, with the jsonschema call as an oracle. -/
def runSchemaValidation (oracle : SchemaOracle) (data schemaV : Value) :
    Tier × List String :=
  match oracle data schemaV with
  | none =>
    ({ valid := true, checks := [{ name := "schema_validation", passed := true }] }, [])
  | some e =>
    let m := e.message
    let msg := s!"Schema validation error: {m}"
    ({ valid := false,
       checks := [{ name := "schema_validation", passed := false, message := some msg,
                    path := some e.path, schemaPath := some e.schemaPath }] },
     [msg])

/-- A custom-tier check (message and severity always present). -/
def customCheck (name : String) (passed : Bool) (msg severity : String) : Check :=
  { name := name, passed := passed, message := some msg, severity := some severity }

/-- `errors = [c for c in checks if not c["passed"] and c["severity"] == "error"]`. -/
def customFails (checks : List Check) : List Check :=
  checks.filter (fun c => !c.passed && c.severity == some "error")

/-- `_validate_excel_table`. -/
def validateExcelTable (data : Value) : Except String (Bool × List Check) := do
  let tables ← pyGetD data "tables" (.list [])
  let tablesL ← iterValue tables
  let perTable ← tablesL.enum.mapM (fun it => do
    let i := it.1
    let table := it.2
    let headers ← pyGetD table "headers" (.list [])
    let c1 := customCheck s!"table_{i}_headers" headers.truthy
      s!"Table {i}: Missing or empty headers" "error"
    let rows ← pyGetD table "data" (.list [])
    let c2 := customCheck s!"table_{i}_data" rows.truthy
      s!"Table {i}: No data rows found" "warning"
    let c3s ← if headers.truthy && rows.truthy then do
        let rowsL ← iterValue rows
        let fieldSets ← rowsL.mapM keySet
        match fieldSets with
        | [] => pure []
        | fs0 :: _ =>
          pure [customCheck s!"table_{i}_consistency" (fieldSets.all (setEqStr · fs0))
            s!"Table {i}: Inconsistent row fields" "warning"]
      else pure []
    pure (c1 :: c2 :: c3s))
  let datas ← tablesL.mapM (fun t => pyGetD t "data" (.list []))
  let hasData := datas.any Value.truthy
  let checks := perTable.flatten ++
    [customCheck "has_table_data" hasData "No data found in any table" "error"]
  pure ((customFails checks).isEmpty, checks)

/-- The per-field loop of `_validate_excel_form` (run only when `fields`
is truthy). -/
def formPerFieldChecks (fields : Value) : Except String (List Check) :=
  if fields.truthy then do
      let fieldsL ← iterValue fields
      let perField ← fieldsL.enum.mapM (fun it => do
        let i := it.1
        let field := it.2
        let memN ← pyContainsStr field "name"
        let hasName ← if memN then Value.truthy <$> pySubscriptStr field "name" else pure false
        let cN := customCheck s!"field_{i}_name" hasName s!"Field {i}: Missing name" "error"
        let hasValue ← pyContainsStr field "value"
        let cV := customCheck s!"field_{i}_value" hasValue s!"Field {i}: Missing value" "error"
        pure [cN, cV])
      pure perField.flatten
  else pure []

/-- `_validate_excel_form`. -/
def validateExcelForm (data : Value) : Except String (Bool × List Check) := do
  let fields ← pyGetD data "fields" (.list [])
  let c1 := customCheck "has_fields" fields.truthy "No fields found in form data" "error"
  let rest ← formPerFieldChecks fields
  let checks := c1 :: rest
  pure ((customFails checks).isEmpty, checks)

/-- The per-section loop of `_validate_excel_report`. -/
def reportPerSectionChecks (sections : Value) : Except String (List Check) :=
  if sections.truthy then do
      let sectionsL ← iterValue sections
      let perSection ← sectionsL.enum.mapM (fun it => do
        let i := it.1
        let sect := it.2
        let memT ← pyContainsStr sect "title"
        let hasTitle ← if memT then Value.truthy <$> pySubscriptStr sect "title" else pure false
        let cT := customCheck s!"section_{i}_title" hasTitle s!"Section {i}: Missing title" "error"
        let memC ← pyContainsStr sect "content"
        let contentOk ← if memC then Value.truthy <$> pySubscriptStr sect "content" else pure false
        let hasContent ← if contentOk then pure true else do
          let memTb ← pyContainsStr sect "tables"
          if memTb then Value.truthy <$> pySubscriptStr sect "tables" else pure false
        let cC := customCheck s!"section_{i}_content" hasContent
          s!"Section {i}: Missing content and tables" "warning"
        pure [cT, cC])
      pure perSection.flatten
  else pure []

/-- `_validate_excel_report`. -/
def validateExcelReport (data : Value) : Except String (Bool × List Check) := do
  let sections ← pyGetD data "sections" (.list [])
  let c1 := customCheck "has_sections" sections.truthy "No sections found in report data" "error"
  let rest ← reportPerSectionChecks sections
  let checks := c1 :: rest
  pure ((customFails checks).isEmpty, checks)

/-- The three timesheet date regexes (`^\d{4}-\d{1,2}-\d{1,2}$`,
`^\d{1,2}/\d{1,2}/\d{2,4}$`, `^\d{1,2}-\d{1,2}-\d{2,4}$`). -/
def lenBetween (cs : List Char) (lo hi : Nat) : Bool :=
  lo ≤ cs.length && cs.length ≤ hi

def matchSepPat (sep : Char) (r1 r2 r3 : Nat × Nat) (s : String) : Bool :=
  match s.toList.splitOn sep with
  | [a, b, c] =>
    allDigits a && allDigits b && allDigits c &&
    lenBetween a r1.1 r1.2 && lenBetween b r2.1 r2.2 && lenBetween c r3.1 r3.2
  | _ => false

def datePatMatch (s : String) : Bool :=
  matchSepPat '-' (4, 4) (1, 2) (1, 2) s ||
  matchSepPat '/' (1, 2) (1, 2) (2, 4) s ||
  matchSepPat '-' (1, 2) (1, 2) (2, 4) s

/-- `[h for h in headers if any(term in h.lower() for term in terms)]`
(the original header strings are kept; a non-string header raises). -/
def headersMatching (headers : Value) (terms : List String) :
    Except String (List String) := do
  let hsL ← iterValue headers
  let pairs ← hsL.mapM (fun h =>
    match h with
    | .str s => Except.ok (s, toLowerStr s)
    | _ => Except.error "AttributeError: lower")
  pure ((pairs.filter (fun p => terms.any (fun t => strContains p.2 t))).map Prod.fst)

/-- `value = row.get(header)`; `None` (or a missing key) contributes
`False`; otherwise the pure predicate is applied (the Python `try` turns
coercion failures into `False`, never an exception). -/
def perRowAll (rows : Value) (header : String) (p : Value → Bool) :
    Except String Bool := do
  let rowsL ← iterValue rows
  let oks ← rowsL.mapM (fun row => do
    let v ← pyGetOpt row header
    match v with
    | none => pure false
    | some w => pure (p w))
  pure (oks.all id)

/-- `float(str(value).replace(',', ''))` succeeds. -/
def floatableB (v : Value) : Bool := (pyFloat (stripCommas (pyStr v))).isSome

/-- ... and the parsed quantity is `>= 0`. -/
def qtyOkB (v : Value) : Bool :=
  match pyFloat (stripCommas (pyStr v)) with
  | some f => f.ge0
  | none => false

/-- ... and the parsed hours satisfy `0 <= hours <= 24`. -/
def hoursOkB (v : Value) : Bool :=
  match pyFloat (stripCommas (pyStr v)) with
  | some f => f.ge0 && f.le24
  | none => false

/-- `str(value)` matches one of the three date patterns. -/
def dateLikeB (v : Value) : Bool := datePatMatch (pyStr v)

/-- The per-table loop of `_validate_excel_financial`. -/
def financialTableChecks (tables : Value) : Except String (List Check) :=
  if tables.truthy then do
      let tablesL ← iterValue tables
      let perTable ← tablesL.enum.mapM (fun it => do
        let i := it.1
        let table := it.2
        let headers ← pyGetD table "headers" (.list [])
        let rows ← pyGetD table "data" (.list [])
        let numericHeaders ← headersMatching headers
          ["amount", "balance", "total", "sum", "credit", "debit", "value", "price"]
        let c2 := customCheck s!"table_{i}_financial_columns" (!numericHeaders.isEmpty)
          s!"Table {i}: No financial columns detected" "warning"
        let more ← if !numericHeaders.isEmpty && rows.truthy then do
            let row0 ← pyIndex0 rows
            let colChecks ← numericHeaders.mapM (fun header => do
              let mem ← pyContainsStr row0 header
              if mem then do
                let allNum ← perRowAll rows header floatableB
                pure [customCheck s!"table_{i}_column_{header}_numeric" allNum
                  (s!"Table {i}: Column " ++ sqS ++ header ++ sqS ++ " contains non-numeric values")
                  "warning"]
              else pure [])
            pure colChecks.flatten
          else pure []
        pure (c2 :: more))
      pure perTable.flatten
  else pure []

/-- `_validate_excel_financial`. -/
def validateExcelFinancial (data : Value) : Except String (Bool × List Check) := do
  let tables ← pyGetD data "tables" (.list [])
  let c1 := customCheck "has_tables" tables.truthy "No tables found in financial data" "error"
  let rest ← financialTableChecks tables
  let checks := c1 :: rest
  pure ((customFails checks).isEmpty, checks)

/-- The per-table loop of `_validate_excel_inventory`. -/
def inventoryTableChecks (tables : Value) : Except String (List Check) :=
  if tables.truthy then do
      let tablesL ← iterValue tables
      let perTable ← tablesL.enum.mapM (fun it => do
        let i := it.1
        let table := it.2
        let headers ← pyGetD table "headers" (.list [])
        let rows ← pyGetD table "data" (.list [])
        let inventoryHeaders ← headersMatching headers
          ["sku", "product", "item", "quantity", "stock", "inventory", "warehouse", "location"]
        let c2 := customCheck s!"table_{i}_inventory_columns" (!inventoryHeaders.isEmpty)
          s!"Table {i}: No inventory columns detected" "warning"
        let quantityHeaders ← headersMatching headers
          ["quantity", "stock", "count", "units", "qty"]
        let more ← if !quantityHeaders.isEmpty && rows.truthy then do
            let row0 ← pyIndex0 rows
            let colChecks ← quantityHeaders.mapM (fun header => do
              let mem ← pyContainsStr row0 header
              if mem then do
                let allOk ← perRowAll rows header qtyOkB
                pure [customCheck s!"table_{i}_column_{header}_valid_quantity" allOk
                  (s!"Table {i}: Column " ++ sqS ++ header ++ sqS ++
                   " contains invalid quantities (must be numeric and non-negative)")
                  "warning"]
              else pure [])
            pure colChecks.flatten
          else pure []
        pure (c2 :: more))
      pure perTable.flatten
  else pure []

/-- `_validate_excel_inventory`. -/
def validateExcelInventory (data : Value) : Except String (Bool × List Check) := do
  let tables ← pyGetD data "tables" (.list [])
  let c1 := customCheck "has_tables" tables.truthy "No tables found in inventory data" "error"
  let rest ← inventoryTableChecks tables
  let checks := c1 :: rest
  pure ((customFails checks).isEmpty, checks)

/-- The per-table loop of `_validate_excel_timesheet`. -/
def timesheetTableChecks (tables : Value) : Except String (List Check) :=
  if tables.truthy then do
      let tablesL ← iterValue tables
      let perTable ← tablesL.enum.mapM (fun it => do
        let i := it.1
        let table := it.2
        let headers ← pyGetD table "headers" (.list [])
        let rows ← pyGetD table "data" (.list [])
        let timesheetHeaders ← headersMatching headers
          ["date", "day", "time", "hours", "project", "task", "employee", "activity"]
        let c2 := customCheck s!"table_{i}_timesheet_columns" (!timesheetHeaders.isEmpty)
          s!"Table {i}: No timesheet columns detected" "warning"
        let dateHeaders ← headersMatching headers ["date", "day", "when"]
        let dateChecks ← if !dateHeaders.isEmpty && rows.truthy then do
            let row0 ← pyIndex0 rows
            let colChecks ← dateHeaders.mapM (fun header => do
              let mem ← pyContainsStr row0 header
              if mem then do
                let allOk ← perRowAll rows header dateLikeB
                pure [customCheck s!"table_{i}_column_{header}_valid_date" allOk
                  (s!"Table {i}: Column " ++ sqS ++ header ++ sqS ++ " contains invalid date values")
                  "warning"]
              else pure [])
            pure colChecks.flatten
          else pure []
        let hourHeaders ← headersMatching headers ["hours", "time", "duration"]
        let hourChecks ← if !hourHeaders.isEmpty && rows.truthy then do
            let row0 ← pyIndex0 rows
            let colChecks ← hourHeaders.mapM (fun header => do
              let mem ← pyContainsStr row0 header
              if mem then do
                let allOk ← perRowAll rows header hoursOkB
                pure [customCheck s!"table_{i}_column_{header}_valid_hours" allOk
                  (s!"Table {i}: Column " ++ sqS ++ header ++ sqS ++
                   " contains invalid hour values (must be between 0 and 24)")
                  "warning"]
              else pure [])
            pure colChecks.flatten
          else pure []
        pure (c2 :: (dateChecks ++ hourChecks)))
      pure perTable.flatten
  else pure []

/-- `_validate_excel_timesheet`. -/
def validateExcelTimesheet (data : Value) : Except String (Bool × List Check) := do
  let tables ← pyGetD data "tables" (.list [])
  let c1 := customCheck "has_tables" tables.truthy "No tables found in timesheet data" "error"
  let rest ← timesheetTableChecks tables
  let checks := c1 :: rest
  pure ((customFails checks).isEmpty, checks)

/-- `self.custom_rules` lookup. -/
def customRuleFor (dataType : String) :
    Option (Value → Except String (Bool × List Check)) :=
  if dataType == "excel_table" then some validateExcelTable
  else if dataType == "excel_form" then some validateExcelForm
  else if dataType == "excel_report" then some validateExcelReport
  else if dataType == "excel_financial" then some validateExcelFinancial
  else if dataType == "excel_inventory" then some validateExcelInventory
  else if dataType == "excel_timesheet" then some validateExcelTimesheet
  else none

/-- `_run_custom_validation`, returning the custom tier together with the
errors and warnings it appends. -/
def runCustomValidation (data : Value) (dataType : String) :
    Except String (Tier × List String × List String) := do
  match customRuleFor dataType with
  | none =>
    let msg := s!"No custom validator available for data type: {dataType}"
    pure ({ valid := true,
            checks := [{ name := "custom_validation", passed := true, message := some msg }] },
          [], [msg])
  | some f => do
    let r ← f data
    let checks := r.2
    let errs := (checks.filter (fun c => !c.passed && c.severity.getD "error" == "error")).map
      (fun c => c.message.getD "Custom validation error")
    let warns := (checks.filter (fun c => !c.passed && !(c.severity.getD "error" == "error"))).map
      (fun c => c.message.getD "Custom validation warning")
    pure ({ valid := r.1, checks := checks }, errs, warns)

/-- The auto-detect-and-mutate prologue of `validate` (lines 112–121): reads
`data["metadata"]["document_type"]`, and when it is absent, falsy or
unsupported, runs `_detect_data_type` and writes the detected type back
into the caller's dict (creating `metadata` first when missing).  Returns
the (possibly mutated) data and the effective data type. -/
def detectAndSet (data : Value) : Except String (Value × String) := do
  let metadata ← pyGetD data "metadata" (.dict [])
  let dtOpt ← pyGetOpt metadata "document_type"
  let keep : Option String :=
    match dtOpt with
    | some (.str s) =>
      if (Value.str s).truthy && SUPPORTED_DATA_TYPES.contains s then some s else none
    | _ => none
  match keep with
  | some s => pure (data, s)
  | none =>
    match data with
    | .dict d => do
      let t ← detectDataType d
      let d1 := if (alook d "metadata").isNone then aset d "metadata" (.dict []) else d
      match alook d1 "metadata" with
      | some (.dict m) =>
        pure (.dict (aset d1 "metadata" (.dict (aset m "document_type" (.str t)))), t)
      | _ => Except.error "TypeError: metadata assignment"
    | _ => Except.error "AttributeError: get"

/-- `ValidationLevel(validation_level.lower())`, falling back to standard. -/
def parseLevel (s : String) : String :=
  let l := toLowerStr s
  if l == "basic" || l == "standard" || l == "strict" || l == "custom" then l
  else "standard"

/-- `ExcelValidator.validate` up to its final return, as an exception-aware
computation: `(is_valid, validation_results, data-after-mutation)`. -/
def validateE (oracle : SchemaOracle) (data : Value) (schemaArg : Option Value)
    (validationLevel : String) : Except String (Bool × VResults × Value) :=
  let level := parseLevel validationLevel
  match detectAndSet data with
  | .error e => .error e
  | .ok (data1, dataType) =>
    match (match schemaArg with
           | some s => Except.ok s
           | none => getDefaultSchema dataType) with
    | .error e => .error e
    | .ok _schemaV =>
      match runBasicValidation data1 dataType with
      | .error e => .error e
      | .ok (basicTier, errsB, warnsB) =>
        if !basicTier.valid && level != "strict" then
          .ok (false,
            { valid := false, level := level, dataType := dataType, errors := errsB,
              warnings := warnsB, basic := basicTier, schema := emptyTier, custom := emptyTier },
            data1)
        else
          let runSchema := level == "standard" || level == "strict" || level == "custom"
          let sp := if runSchema then runSchemaValidation oracle data1 _schemaV else (emptyTier, [])
          let schemaValid := if runSchema then sp.1.valid else true
          let runCustom := level == "strict" || level == "custom"
          match (if runCustom then runCustomValidation data1 dataType
                 else Except.ok (emptyTier, ([] : List String), ([] : List String))) with
          | .error e => .error e
          | .ok (customTier, errsC, warnsC) =>
            let customValid := if runCustom then customTier.valid else true
            let isValid := basicTier.valid && schemaValid && customValid
            .ok (isValid,
              { valid := isValid, level := level, dataType := dataType,
                errors := errsB ++ sp.2 ++ errsC, warnings := warnsB ++ warnsC,
                basic := basicTier,
                schema := if runSchema then sp.1 else emptyTier,
                custom := if runCustom then customTier else emptyTier },
              data1)

/-- The observable outcome of `ExcelValidator.validate`: the normal return,
or the `except Exception` fallback dict (whose `details` has none of the
three tiers). -/
inductive ValidateOut where
  | ok (valid : Bool) (results : VResults) (dataOut : Value)
  | errored (level : String) (msg : String)
deriving Repr

/-- `ExcelValidator.validate(data, schema, validation_level)`. -/
def validate (oracle : SchemaOracle) (data : Value) (schemaArg : Option Value)
    (validationLevel : String) : ValidateOut :=
  match validateE oracle data schemaArg validationLevel with
  | .ok r => .ok r.1 r.2.1 r.2.2
  | .error e => .errored validationLevel s!"Validation error: {e}"

def outValid : ValidateOut → Bool
  | .ok v _ _ => v
  | .errored _ _ => false

def outResults : ValidateOut → VResults
  | .ok _ r _ => r
  | .errored _ _ => default

def outData : ValidateOut → Value
  | .ok _ _ d => d
  | .errored _ _ => .null

/-- A jsonschema oracle that always accepts (used for concrete runs). -/
def oracleTrue : SchemaOracle := fun _ _ => none

end ExcelValidator

/- ## Auxiliary definitions used by the statements -/

/-- The keep-or-drop step the API parser sheet loop amounts to (skip a
failed read; keep a read sheet iff both axes are positive). -/
def apiKeep (clean : DataFrame → DataFrame) (sr : SheetRead) :
    Option (String × ApiExcelParser.Sheet) :=
  match sr.2 with
  | .error _ => none
  | .ok df =>
    if df.rows.length > 0 && df.columns.length > 0 then
      some (sr.1, ApiExcelParser.dataframeToDict clean df)
    else none

/-- A source sheet with a header row and no data rows (an empty sheet). -/
def dfEmptyHdr : DataFrame := { columns := ["a"], rows := [] }

/-- A readable one-row sheet. -/
def dfGood : DataFrame := { columns := ["a"], rows := [[.int 1]] }

/-- A fully successful pipeline run whose job was canceled in the database
(status `"canceled"`) before the next stage boundary. -/
def envCanceledRun : Env :=
  { jobStatus := "canceled",
    document := some { filename := "invoice.xlsx", filePath := "docs/invoice.xlsx" },
    minioReady := true, tmpPath := "/tmp/doc-1", fgetOk := true,
    parseRes := .ok (), extractRes := .ok (), createOk := true }

/-- A run whose parse stage raises. -/
def envParseFail : Env :=
  { jobStatus := "processing",
    document := some { filename := "invoice.xlsx", filePath := "docs/invoice.xlsx" },
    minioReady := true, tmpPath := "/tmp/doc-1", fgetOk := true,
    parseRes := .error "bad workbook", extractRes := .ok (), createOk := true }

/-- A run whose MinIO `fget_object` raises after `mkstemp` created the
temp file (`download_document` then returns `None`). -/
def envDownloadFail : Env :=
  { jobStatus := "processing",
    document := some { filename := "invoice.xlsx", filePath := "docs/invoice.xlsx" },
    minioReady := true, tmpPath := "/tmp/doc-1", fgetOk := false,
    parseRes := .ok (), extractRes := .ok (), createOk := true }

/-- `data["metadata"]["document_type"]` of a value, when present. -/
def pathDT (v : Value) : Option Value :=
  match v with
  | .dict d =>
    match alook d "metadata" with
    | some (.dict m) => alook m "document_type"
    | _ => none
  | _ => none

/-- The condition under which `ExcelValidator.validate` auto-detects (and
hence writes back) the data type: `metadata.document_type` absent, falsy or
not a supported type string (stored `None` reads back as absent). -/
def needsDetect (data : Value) : Bool :=
  match data with
  | .dict d =>
    match alook d "metadata" with
    | none => true
    | some (.dict m) =>
      match alook m "document_type" with
      | none => true
      | some .null => true
      | some v =>
        !(v.truthy &&
          (match v with
           | .str s => ExcelValidator.SUPPORTED_DATA_TYPES.contains s
           | _ => false))
    | some _ => false
  | _ => false

/-- The `_detect_data_type` input that separates the code from the spec's
scoring description: a `fields` list plus an inventory-named sheet. -/
def detectCexData : List (String × Value) :=
  [("fields", .list []),
   ("tables", .list [.dict [("sheet_name", .str "inventory")]])]

/-- Stability of a `total_amount` slot under `amountStep`: absent, already
numeric, or failing to coerce. -/
def amountStable : Option Value → Prop
  | none => True
  | some v => v.isNumInst = true ∨
      (v.isNumInst = false ∧ pyFloat (SchemaValidator.cleanAmount (pyStr v)) = none)

/-- Stability of a `date` slot under `dateStep`: absent, a non-string
(`TypeError`, swallowed), already ISO, or failing both formats. -/
def dateStable : Option Value → Prop
  | none => True
  | some (Value.str s) =>
    SchemaValidator.isoMatch s = true ∨
      (SchemaValidator.strptimeDate true '/' s = none ∧
       SchemaValidator.strptimeDate false '.' s = none)
  | some _ => True

/- ## Helper lemmas -/

theorem exbind_ok {α β : Type} {x : Except String α} {f : α → Except String β} {b : β}
    (h : (x >>= f) = .ok b) : ∃ a, x = .ok a ∧ f a = .ok b := by
  cases x with
  | ok a => exact ⟨a, rfl, h⟩
  | error e => exact absurd h (by simp [Bind.bind, Except.bind])

theorem alook_aset_self (d : List (String × Value)) (k : String) (v : Value) :
    alook (aset d k v) k = some v := by
  induction d with
  | nil => simp [aset, alook]
  | cons kv rest ih =>
    obtain ⟨k', v'⟩ := kv
    cases hk : (k' == k) with
    | true => simp [aset, hk, alook]
    | false => simp [aset, hk, alook, ih]

theorem alook_aset_other (d : List (String × Value)) (k k2 : String) (v : Value)
    (hne : k ≠ k2) : alook (aset d k v) k2 = alook d k2 := by
  induction d with
  | nil => simp [aset, alook, hne]
  | cons kv rest ih =>
    obtain ⟨k', v'⟩ := kv
    cases hk : (k' == k) with
    | true =>
      have : k' = k := by simpa using hk
      subst this
      simp [aset, hk, alook, hne]
    | false => simp [aset, hk, alook, ih]

theorem parseSheets_eq_filterMap (clean : DataFrame → DataFrame) (l : List SheetRead) :
    ApiExcelParser.parseSheets clean l = l.filterMap (apiKeep clean) := by
  induction l with
  | nil => rfl
  | cons sr rest ih =>
    obtain ⟨name, r⟩ := sr
    cases r with
    | error e => simpa [ApiExcelParser.parseSheets, apiKeep] using ih
    | ok df =>
      cases h : (df.rows.length > 0 && df.columns.length > 0) with
      | true => simp [ApiExcelParser.parseSheets, apiKeep, h, ih]
      | false => simp [ApiExcelParser.parseSheets, apiKeep, h, ih]

theorem parseExcelSheets_err (sheets : List SheetRead) (name msg : String)
    (hmem : ((name, Except.error msg) : SheetRead) ∈ sheets) :
    ∃ m, ProcExcelParser.parseExcelSheets sheets = .error m := by
  induction sheets with
  | nil => cases hmem
  | cons sr rest ih =>
    cases hmem with
    | head => exact ⟨msg, rfl⟩
    | tail _ hm =>
      obtain ⟨n2, r2⟩ := sr
      cases r2 with
      | error e => exact ⟨e, rfl⟩
      | ok df =>
        obtain ⟨m, hm2⟩ := ih hm
        exact ⟨m, by simp [ProcExcelParser.parseExcelSheets, hm2]⟩

theorem parseExcelSheets_ok_shape (sheets : List SheetRead)
    (out : List (String × ProcExcelParser.Sheet))
    (h : ProcExcelParser.parseExcelSheets sheets = .ok out) :
    List.Forall₂
      (fun (sr : SheetRead) (ns : String × ProcExcelParser.Sheet) =>
        ns.1 = sr.1 ∧ ∃ df, sr.2 = .ok df ∧ ns.2 = ProcExcelParser.mkSheet df)
      sheets out := by
  induction sheets generalizing out with
  | nil =>
    simp [ProcExcelParser.parseExcelSheets] at h
    subst h
    exact List.Forall₂.nil
  | cons sr rest ih =>
    obtain ⟨n2, r2⟩ := sr
    cases r2 with
    | error e => simp [ProcExcelParser.parseExcelSheets] at h
    | ok df =>
      rw [ProcExcelParser.parseExcelSheets] at h
      cases ht : ProcExcelParser.parseExcelSheets rest with
      | error e => rw [ht] at h; cases h
      | ok tail =>
        rw [ht] at h
        cases h
        exact List.Forall₂.cons ⟨rfl, df, rfl, rfl⟩ (ih tail ht)

/- ## Claim theorems -/

/-- C5 (amended): in the API parser, `shape.rows` of every kept sheet equals
the source data-row count, but empty (or unreadable) sheets are omitted from
`sheets` entirely; in the processor parser, an empty sheet yields
`empty == true`, `rows == 0` and `data == []`, and a nonempty sheet's `rows`
equals the source data-row count. -/
theorem c5_parse_rows_amended :
    (∀ clean df, (ApiExcelParser.dataframeToDict clean df).shapeRows = df.rows.length) ∧
    (∀ clean sheets, ApiExcelParser.parseSheets clean sheets = sheets.filterMap (apiKeep clean)) ∧
    (∀ df, df.emptyB = true → ProcExcelParser.mkSheet df =
        { empty := true, rows := 0, columns := 0, columnNames := none, data := [] }) ∧
    (∀ df, df.emptyB = false →
        (ProcExcelParser.mkSheet df).empty = false ∧
        (ProcExcelParser.mkSheet df).rows = df.rows.length) ∧
    (∀ sheets out, ProcExcelParser.parseExcelSheets sheets = .ok out →
        List.Forall₂
          (fun (sr : SheetRead) (ns : String × ProcExcelParser.Sheet) =>
            ns.1 = sr.1 ∧ ∃ df, sr.2 = .ok df ∧ ns.2 = ProcExcelParser.mkSheet df)
          sheets out) := by
  refine ⟨fun clean df => rfl, parseSheets_eq_filterMap, ?_, ?_, parseExcelSheets_ok_shape⟩
  · intro df h
    simp [ProcExcelParser.mkSheet, h]
  · intro df h
    simp [ProcExcelParser.mkSheet, h]

/-- C5 witness: the amended facts evaluated at a concrete empty sheet and a
concrete one-row sheet. -/
theorem c5_parse_rows_witness :
    ProcExcelParser.mkSheet dfEmptyHdr =
      { empty := true, rows := 0, columns := 0, columnNames := none, data := [] } ∧
    (ProcExcelParser.mkSheet dfGood).rows = dfGood.rows.length :=
  ⟨c5_parse_rows_amended.2.2.1 dfEmptyHdr (by decide),
   (c5_parse_rows_amended.2.2.2.1 dfGood (by decide)).2⟩

/-- C5 counterexample: an empty source sheet produces *no* entry in the API
parser output (so no `empty == true` / `data == []` fields exist for it),
contradicting the claim. -/
theorem c5_parse_rows_counterexample :
    dfEmptyHdr.emptyB = true ∧
    alook (ApiExcelParser.parseSheets id [("S", Except.ok dfEmptyHdr)]) "S" = none :=
  ⟨rfl, rfl⟩

/-- C6 (amended): the API-service parser drops a failing sheet and keeps
all remaining sheets; the processor-service parser instead re-raises, so
one bad sheet fails the whole-document parse there. -/
theorem c6_sheet_skip_amended :
    (∀ clean (pre post : List SheetRead) name msg,
        ApiExcelParser.parseSheets clean (pre ++ (name, Except.error msg) :: post) =
        ApiExcelParser.parseSheets clean (pre ++ post)) ∧
    (∀ sheets name msg, ((name, Except.error msg) : SheetRead) ∈ sheets →
        ∃ m, ProcExcelParser.parseExcelSheets sheets = .error m) := by
  constructor
  · intro clean pre post name msg
    simp [parseSheets_eq_filterMap, List.filterMap_append, List.filterMap_cons, apiKeep]
  · exact fun sheets name msg h => parseExcelSheets_err sheets name msg h

/-- C6 witness: the amended behaviour at one concrete two-sheet workbook. -/
theorem c6_sheet_skip_witness :
    ApiExcelParser.parseSheets id
        [("good", Except.ok dfGood), ("bad", Except.error "read failure")] =
      ApiExcelParser.parseSheets id [("good", Except.ok dfGood)] ∧
    ∃ m, ProcExcelParser.parseExcelSheets
        [("good", Except.ok dfGood), ("bad", Except.error "read failure")] = .error m := by
  constructor
  · exact c6_sheet_skip_amended.1 id [("good", Except.ok dfGood)] [] "bad" "read failure"
  · exact c6_sheet_skip_amended.2 _ "bad" "read failure" (by simp)

/-- C6 counterexample: with one good and one bad sheet, the processor
parser fails the whole document instead of skipping the bad sheet (while
the API parser keeps the good sheet). -/
theorem c6_sheet_skip_counterexample :
    ProcExcelParser.parseExcelSheets
        [("good", Except.ok dfGood), ("bad", Except.error "read failure")] =
      .error "read failure" ∧
    ApiExcelParser.parseSheets id
        [("good", Except.ok dfGood), ("bad", Except.error "read failure")] =
      [("good", ApiExcelParser.dataframeToDict id dfGood)] :=
  ⟨rfl, rfl⟩

/-- C7 (confirmed): both cancel entry points succeed (and write `canceled`)
exactly when the stored status is `pending` or `processing`; any other
status is rejected with the status left unchanged, and a missing job is a
404. -/
theorem c7_cancel_guard :
    (∀ st, cancelProcessingJob (some st) =
      if st == "pending" || st == "processing" then (some "canceled", CancelResp.canceled)
      else (some st, CancelResp.httpError 400)) ∧
    (∀ st, apiCancelProcessing (some st) =
      if st == "pending" || st == "processing" then (some "canceled", CancelResp.canceled)
      else (some st, CancelResp.notCanceled)) ∧
    cancelProcessingJob none = (none, CancelResp.httpError 404) ∧
    apiCancelProcessing none = (none, CancelResp.httpError 404) := by
  refine ⟨fun st => ?_, fun st => ?_, rfl, rfl⟩ <;>
    cases h : (st == "pending" || st == "processing") <;>
      simp [cancelProcessingJob, apiCancelProcessing, h]

/-- C2 (code bug): `process_document` never reads the job's stored status —
its behaviour is invariant under that status — so a `canceled` status is
never observed: a successful run whose job is already `canceled` still
records progress 20/40/70/90/100 and finally overwrites the status with
`completed`. -/
theorem c2_cancel_never_checked :
    (∀ (env : Env) (s1 s2 : String), processDocument { env with jobStatus := s1 } =
        processDocument { env with jobStatus := s2 }) ∧
    processDocument envCanceledRun =
      [.updJob "processing" (some 10) none, .mkTmp "/tmp/doc-1",
       .updJob "processing" (some 20) none, .updJob "processing" (some 40) none,
       .updJob "processing" (some 70) none, .updJob "processing" (some 90) none,
       .createExtraction, .updDoc "processed", .updJob "completed" (some 100) none,
       .rmTmp "/tmp/doc-1"] ∧
    progressWrites (processDocument envCanceledRun) = [10, 20, 40, 70, 90, 100] ∧
    lastJobWrite (processDocument envCanceledRun) = some ("completed", none) := by
  refine ⟨fun env s1 s2 => ?_, rfl, rfl, rfl⟩
  cases env
  rfl

/-- C3 (amended): an unrecovered stage error sets Job.status to `failed`
with a message on Job.error, and a successful run sets Document.status to
`processed` — but no failure path ever writes Document.status (the
`updDoc "error"` cascade the claim describes does not exist). -/
theorem c3_failure_sets_job_only :
    (∀ env s, Event.updDoc s ∈ processDocument env → s = "processed") ∧
    (∀ env, envSucceeds env = true →
        lastJobWrite (processDocument env) = some ("completed", none) ∧
        Event.updDoc "processed" ∈ processDocument env) ∧
    (∀ env, envSucceeds env = false →
        ∃ m, lastJobWrite (processDocument env) = some ("failed", some m)) := by
  refine ⟨?_, ?_, ?_⟩
  · rintro ⟨js, doc, mr, tp, fg, pr, er, co⟩ s hmem
    cases doc with
    | none => simp [processDocument] at hmem
    | some d =>
      cases mr with
      | false => simp [processDocument, downloadDocument] at hmem
      | true =>
        cases fg with
        | false => simp [processDocument, downloadDocument] at hmem
        | true =>
          cases hext : (extOf d.filename == "xlsx" || extOf d.filename == "xls" ||
              extOf d.filename == "csv") with
          | false => simp [processDocument, downloadDocument, processInner, hext] at hmem
          | true =>
            cases pr with
            | error e => simp [processDocument, downloadDocument, processInner, hext] at hmem
            | ok u =>
              cases er with
              | error e =>
                simp [processDocument, downloadDocument, processInner, hext] at hmem
              | ok u2 =>
                simp [processDocument, downloadDocument, processInner, hext] at hmem
                exact hmem
  · rintro ⟨js, doc, mr, tp, fg, pr, er, co⟩ h
    cases doc with
    | none => simp [envSucceeds] at h
    | some d =>
      cases mr with
      | false => simp [envSucceeds] at h
      | true =>
        cases fg with
        | false => simp [envSucceeds] at h
        | true =>
          cases pr with
          | error e => simp [envSucceeds, Except.isOk, Except.toBool] at h
          | ok u =>
            cases er with
            | error e => simp [envSucceeds, Except.isOk, Except.toBool] at h
            | ok u2 =>
              cases hext : (extOf d.filename == "xlsx" || extOf d.filename == "xls" ||
                  extOf d.filename == "csv") with
              | false => simp [envSucceeds, hext] at h
              | true =>
                constructor
                · simp [processDocument, downloadDocument, processInner, hext, lastJobWrite]
                · simp [processDocument, downloadDocument, processInner, hext]
  · rintro ⟨js, doc, mr, tp, fg, pr, er, co⟩ h
    cases doc with
    | none =>
      exact ⟨"Document not found", by simp [processDocument, lastJobWrite]⟩
    | some d =>
      cases mr with
      | false =>
        exact ⟨"Failed to download document",
          by simp [processDocument, downloadDocument, lastJobWrite]⟩
      | true =>
        cases fg with
        | false =>
          exact ⟨"Failed to download document",
            by simp [processDocument, downloadDocument, lastJobWrite]⟩
        | true =>
          cases hext : (extOf d.filename == "xlsx" || extOf d.filename == "xls" ||
              extOf d.filename == "csv") with
          | false =>
            refine ⟨"Unsupported file type: " ++ extOf d.filename, ?_⟩
            simp [processDocument, downloadDocument, processInner, hext, lastJobWrite,
              toString, String.append_empty]
          | true =>
            cases pr with
            | error e =>
              exact ⟨s!"Processing error: {e}",
                by simp [processDocument, downloadDocument, processInner, hext, lastJobWrite]⟩
            | ok u =>
              cases er with
              | error e =>
                exact ⟨s!"Processing error: {e}",
                  by simp [processDocument, downloadDocument, processInner, hext, lastJobWrite]⟩
              | ok u2 =>
                simp [envSucceeds, hext, Except.isOk, Except.toBool] at h

/-- C3 witness: the amended behaviour at a concrete successful run and a
concrete parse-failure run. -/
theorem c3_failure_sets_job_only_witness :
    (lastJobWrite (processDocument envCanceledRun) = some ("completed", none) ∧
     Event.updDoc "processed" ∈ processDocument envCanceledRun) ∧
    (∃ m, lastJobWrite (processDocument envParseFail) = some ("failed", some m)) :=
  ⟨c3_failure_sets_job_only.2.1 envCanceledRun (by decide),
   c3_failure_sets_job_only.2.2 envParseFail (by decide)⟩

/-- C3 counterexample: a parse failure ends the job `failed` with a
human-readable error, yet records *no* Document.status write at all —
in particular not the `error` status the claim requires. -/
theorem c3_doc_error_counterexample :
    lastJobWrite (processDocument envParseFail) =
      some ("failed", some "Processing error: bad workbook") ∧
    Event.updDoc "error" ∉ processDocument envParseFail ∧
    Event.updDoc "processed" ∉ processDocument envParseFail := by
  refine ⟨rfl, by decide, by decide⟩

/-- C4 (confirmed): once the download has produced a temp-file path, every
exit of `process_document` — success, any stage failure, unsupported
extension — removes that file (the parse/extract/validate/persist block is
wrapped in `try/finally`, and the db-client calls never raise). -/
theorem c4_tmpfile_removed (env : Env) (doc : DocRow)
    (hdoc : env.document = some doc) (hready : env.minioReady = true)
    (hfget : env.fgetOk = true) :
    Event.rmTmp env.tmpPath ∈ processDocument env := by
  obtain ⟨js, d0, mr, tp, fg, pr, er, co⟩ := env
  simp only at hdoc hready hfget
  subst hready hfget hdoc
  simp [processDocument, downloadDocument]

/-- C4 witness: the temp file is removed on a concrete full run. -/
theorem c4_tmpfile_removed_witness :
    Event.rmTmp envCanceledRun.tmpPath ∈ processDocument envCanceledRun :=
  c4_tmpfile_removed envCanceledRun
    { filename := "invoice.xlsx", filePath := "docs/invoice.xlsx" } rfl rfl rfl

/- Helper lemmas for normalization (C8). -/

theorem isDigitCh_digitChar (n : Nat) : isDigitCh (digitChar n) = true := by
  unfold digitChar
  split <;> rfl

theorem isoMatch_formatISO (y m d : Nat) :
    SchemaValidator.isoMatch (SchemaValidator.formatISO y m d) = true := by
  simp [SchemaValidator.isoMatch, SchemaValidator.formatISO, SchemaValidator.pad4,
        SchemaValidator.pad2, String.toList, isDigitCh_digitChar]

theorem amountStep_alook_other (d : List (String × Value)) (k : String)
    (hk : k ≠ "total_amount") :
    alook (SchemaValidator.amountStep d) k = alook d k := by
  unfold SchemaValidator.amountStep
  cases hl : alook d "total_amount" with
  | none => rfl
  | some v =>
    cases hnum : v.isNumInst with
    | true => simp [hnum]
    | false =>
      cases hp : pyFloat (SchemaValidator.cleanAmount (pyStr v)) with
      | none => simp [hnum, hp]
      | some f =>
        simp [hnum, hp, alook_aset_other d "total_amount" k _ (fun hh => hk hh.symm)]

theorem dateStep_alook_other (d : List (String × Value)) (k : String)
    (hk : k ≠ "date") :
    alook (SchemaValidator.dateStep d) k = alook d k := by
  unfold SchemaValidator.dateStep
  cases hl : alook d "date" with
  | none => rfl
  | some v =>
    cases hiso : SchemaValidator.isoMatch (pyStr v) with
    | true => simp [hiso]
    | false =>
      cases v with
      | str s =>
        cases hp1 : SchemaValidator.strptimeDate true '/' s with
        | some ymd =>
          obtain ⟨y, m, dd⟩ := ymd
          simp [hiso, hp1, alook_aset_other d "date" k _ (fun hh => hk hh.symm)]
        | none =>
          cases hp2 : SchemaValidator.strptimeDate false '.' s with
          | some ymd =>
            obtain ⟨y, m, dd⟩ := ymd
            simp [hiso, hp1, hp2, alook_aset_other d "date" k _ (fun hh => hk hh.symm)]
          | none => simp [hiso, hp1, hp2]
      | null => simp [hiso]
      | bool b => simp [hiso]
      | int n => simp [hiso]
      | num f => simp [hiso]
      | list xs => simp [hiso]
      | dict dd => simp [hiso]

theorem amountStep_eq_self (d : List (String × Value))
    (h : amountStable (alook d "total_amount")) :
    SchemaValidator.amountStep d = d := by
  unfold SchemaValidator.amountStep
  cases hl : alook d "total_amount" with
  | none => rfl
  | some v =>
    rw [hl] at h
    rcases h with hnum | ⟨hnum, hp⟩
    · simp [hnum]
    · simp [hnum, hp]

theorem amountStep_stable (d : List (String × Value)) :
    amountStable (alook (SchemaValidator.amountStep d) "total_amount") := by
  unfold SchemaValidator.amountStep
  cases hl : alook d "total_amount" with
  | none => simp [hl, amountStable]
  | some v =>
    cases hnum : v.isNumInst with
    | true => simp [hl, amountStable, hnum]
    | false =>
      cases hp : pyFloat (SchemaValidator.cleanAmount (pyStr v)) with
      | none => simp [hl, amountStable, hnum, hp]
      | some f =>
        simp only [hnum, hp, Bool.false_eq_true, if_false]
        simp [alook_aset_self, amountStable, Value.isNumInst]

theorem dateStep_eq_self (d : List (String × Value))
    (h : dateStable (alook d "date")) :
    SchemaValidator.dateStep d = d := by
  unfold SchemaValidator.dateStep
  cases hl : alook d "date" with
  | none => rfl
  | some v =>
    rw [hl] at h
    cases hiso : SchemaValidator.isoMatch (pyStr v) with
    | true => simp [hiso]
    | false =>
      cases v with
      | str s =>
        rcases h with h1 | ⟨hp1, hp2⟩
        · rw [show pyStr (Value.str s) = s from rfl] at hiso
          rw [h1] at hiso
          cases hiso
        · simp [hiso, hp1, hp2]
      | null => simp [hiso]
      | bool b => simp [hiso]
      | int n => simp [hiso]
      | num f => simp [hiso]
      | list xs => simp [hiso]
      | dict dd => simp [hiso]

theorem dateStep_stable (d : List (String × Value)) :
    dateStable (alook (SchemaValidator.dateStep d) "date") := by
  unfold SchemaValidator.dateStep
  cases hl : alook d "date" with
  | none => simp [hl, dateStable]
  | some v =>
    cases hiso : SchemaValidator.isoMatch (pyStr v) with
    | true =>
      cases v <;> simp_all [dateStable, hl, pyStr]
    | false =>
      cases v with
      | str s =>
        cases hp1 : SchemaValidator.strptimeDate true '/' s with
        | some ymd =>
          obtain ⟨y, m, dd⟩ := ymd
          simp [hiso, hp1, alook_aset_self, dateStable, isoMatch_formatISO]
        | none =>
          cases hp2 : SchemaValidator.strptimeDate false '.' s with
          | some ymd =>
            obtain ⟨y, m, dd⟩ := ymd
            simp [hiso, hp1, hp2, alook_aset_self, dateStable, isoMatch_formatISO]
          | none => simp [hiso, hp1, hp2, hl, dateStable]
      | null => simp [hiso, hl, dateStable]
      | bool b => simp [hiso, hl, dateStable]
      | int n => simp [hiso, hl, dateStable]
      | num f => simp [hiso, hl, dateStable]
      | list xs => simp [hiso, hl, dateStable]
      | dict dd => simp [hiso, hl, dateStable]

/-- C8 (confirmed): `_normalize_data` is idempotent; an already-numeric
`total_amount` and an already-ISO `date` are left unchanged; and when
coercion fails (amount unparsable, or date matching neither `%m/%d/%Y` nor
`%d.%m.%Y`), the original value is left unchanged. -/
theorem c8_normalize_idempotent :
    (∀ data t, SchemaValidator.normalizeData (SchemaValidator.normalizeData data t) t =
        SchemaValidator.normalizeData data t) ∧
    (∀ data t v, alook data "total_amount" = some v → v.isNumInst = true →
        alook (SchemaValidator.normalizeData data t) "total_amount" = some v) ∧
    (∀ data t v, alook data "date" = some v → SchemaValidator.isoMatch (pyStr v) = true →
        alook (SchemaValidator.normalizeData data t) "date" = some v) ∧
    (∀ data t v, alook data "total_amount" = some v → v.isNumInst = false →
        pyFloat (SchemaValidator.cleanAmount (pyStr v)) = none →
        alook (SchemaValidator.normalizeData data t) "total_amount" = some v) ∧
    (∀ data t s, alook data "date" = some (.str s) → SchemaValidator.isoMatch s = false →
        SchemaValidator.strptimeDate true '/' s = none →
        SchemaValidator.strptimeDate false '.' s = none →
        alook (SchemaValidator.normalizeData data t) "date" = some (.str s)) := by
  have hstable : ∀ data, SchemaValidator.dateStep (SchemaValidator.dateStep data) =
      SchemaValidator.dateStep data :=
    fun data => dateStep_eq_self _ (dateStep_stable data)
  refine ⟨?_, ?_, ?_, ?_, ?_⟩
  · intro data t
    cases ht : (t == "invoice") with
    | false => simp [SchemaValidator.normalizeData, ht]
    | true =>
      simp only [SchemaValidator.normalizeData, ht, if_true]
      have h1 : SchemaValidator.amountStep
          (SchemaValidator.dateStep (SchemaValidator.amountStep data)) =
          SchemaValidator.dateStep (SchemaValidator.amountStep data) := by
        apply amountStep_eq_self
        rw [dateStep_alook_other _ _ (by decide)]
        exact amountStep_stable data
      rw [h1, hstable]
  · intro data t v hv hnum
    cases ht : (t == "invoice") with
    | false => simp [SchemaValidator.normalizeData, ht, hv]
    | true =>
      simp only [SchemaValidator.normalizeData, ht, if_true]
      have ha : SchemaValidator.amountStep data = data :=
        amountStep_eq_self data (by rw [hv]; exact Or.inl hnum)
      rw [ha, dateStep_alook_other _ _ (by decide), hv]
  · intro data t v hv hiso
    cases ht : (t == "invoice") with
    | false => simp [SchemaValidator.normalizeData, ht, hv]
    | true =>
      simp only [SchemaValidator.normalizeData, ht, if_true]
      have hv2 : alook (SchemaValidator.amountStep data) "date" = some v := by
        rw [amountStep_alook_other _ _ (by decide), hv]
      have hd : SchemaValidator.dateStep (SchemaValidator.amountStep data) =
          SchemaValidator.amountStep data := by
        apply dateStep_eq_self
        rw [hv2]
        cases v with
        | str s => exact Or.inl hiso
        | null => trivial
        | bool b => trivial
        | int n => trivial
        | num f => trivial
        | list xs => trivial
        | dict dd => trivial
      rw [hd, hv2]
  · intro data t v hv hnum hp
    cases ht : (t == "invoice") with
    | false => simp [SchemaValidator.normalizeData, ht, hv]
    | true =>
      simp only [SchemaValidator.normalizeData, ht, if_true]
      have ha : SchemaValidator.amountStep data = data :=
        amountStep_eq_self data (by rw [hv]; exact Or.inr ⟨hnum, hp⟩)
      rw [ha, dateStep_alook_other _ _ (by decide), hv]
  · intro data t s hv hiso hp1 hp2
    cases ht : (t == "invoice") with
    | false => simp [SchemaValidator.normalizeData, ht, hv]
    | true =>
      simp only [SchemaValidator.normalizeData, ht, if_true]
      have hv2 : alook (SchemaValidator.amountStep data) "date" = some (.str s) := by
        rw [amountStep_alook_other _ _ (by decide), hv]
      have hd : SchemaValidator.dateStep (SchemaValidator.amountStep data) =
          SchemaValidator.amountStep data := by
        apply dateStep_eq_self
        rw [hv2]
        exact Or.inr ⟨hp1, hp2⟩
      rw [hd, hv2]

/-- C8 witness: the theorem at a concrete record with a numeric amount, an
ISO date, an uncoercible amount and an unparsable date. -/
theorem c8_normalize_idempotent_witness :
    SchemaValidator.normalizeData
        (SchemaValidator.normalizeData
          [("total_amount", Value.int 5), ("date", Value.str "2025-03-26")] "invoice")
        "invoice" =
      SchemaValidator.normalizeData
        [("total_amount", Value.int 5), ("date", Value.str "2025-03-26")] "invoice" ∧
    alook (SchemaValidator.normalizeData
        [("total_amount", Value.int 5), ("date", Value.str "2025-03-26")] "invoice")
        "total_amount" = some (Value.int 5) ∧
    alook (SchemaValidator.normalizeData
        [("total_amount", Value.int 5), ("date", Value.str "2025-03-26")] "invoice")
        "date" = some (Value.str "2025-03-26") ∧
    alook (SchemaValidator.normalizeData
        [("total_amount", Value.str "n/a"), ("date", Value.str "soon")] "invoice")
        "total_amount" = some (Value.str "n/a") ∧
    alook (SchemaValidator.normalizeData
        [("total_amount", Value.str "n/a"), ("date", Value.str "soon")] "invoice")
        "date" = some (Value.str "soon") :=
  ⟨c8_normalize_idempotent.1 _ "invoice",
   c8_normalize_idempotent.2.1 _ "invoice" _ rfl rfl,
   c8_normalize_idempotent.2.2.1 _ "invoice" _ rfl rfl,
   c8_normalize_idempotent.2.2.2.1 _ "invoice" _ rfl rfl rfl,
   c8_normalize_idempotent.2.2.2.2 _ "invoice" "soon" rfl rfl rfl rfl⟩

/- Helper lemmas for the detection scoring (C9). -/

theorem foldl_max_eq_or_mem (l : List Nat) (a : Nat) :
    l.foldl max a = a ∨ l.foldl max a ∈ l := by
  induction l generalizing a with
  | nil => exact Or.inl rfl
  | cons x xs ih =>
    rcases ih (max a x) with h | h
    · rcases max_choice a x with hm | hm
      · exact Or.inl (by rw [List.foldl_cons, h, hm])
      · exact Or.inr (by rw [List.foldl_cons, h, hm]; exact List.mem_cons_self x xs)
    · exact Or.inr (List.mem_cons_of_mem x h)

theorem seed_le_foldl_max (l : List Nat) (a : Nat) : a ≤ l.foldl max a := by
  induction l generalizing a with
  | nil => exact le_refl a
  | cons x xs ih => exact le_trans (le_max_left a x) (ih (max a x))

theorem mem_le_foldl_max (l : List Nat) (a x : Nat) (hx : x ∈ l) :
    x ≤ l.foldl max a := by
  induction l generalizing a with
  | nil => cases hx
  | cons y ys ih =>
    rcases List.mem_cons.mp hx with h | h
    · subst h
      exact le_trans (le_max_right a x) (seed_le_foldl_max ys (max a x))
    · exact ih (max a y) h

theorem pickDetected_spec (scores : List (String × Nat)) (hne : scores ≠ []) :
    (((scores.map Prod.snd).foldl max 0 > 0) →
      (ExcelValidator.pickDetected scores, (scores.map Prod.snd).foldl max 0) ∈ scores ∧
      ∀ p ∈ scores, p.2 ≤ (scores.map Prod.snd).foldl max 0) ∧
    (((scores.map Prod.snd).foldl max 0 = 0) →
      ExcelValidator.pickDetected scores = "excel_table") := by
  constructor
  · intro hpos
    have hmem : (scores.map Prod.snd).foldl max 0 ∈ scores.map Prod.snd := by
      rcases foldl_max_eq_or_mem (scores.map Prod.snd) 0 with h | h
      · omega
      · exact h
    have hfind : (scores.find? (fun ts => ts.2 == (scores.map Prod.snd).foldl max 0)).isSome := by
      rw [List.find?_isSome]
      rcases List.mem_map.mp hmem with ⟨p, hp, hpe⟩
      exact ⟨p, hp, by simp [hpe]⟩
    obtain ⟨ts, hts⟩ := Option.isSome_iff_exists.mp hfind
    have htmem := List.mem_of_find?_eq_some hts
    have htp : ts.2 = (scores.map Prod.snd).foldl max 0 := by
      have := List.find?_some hts
      simpa using this
    have hpick : ExcelValidator.pickDetected scores = ts.1 := by
      unfold ExcelValidator.pickDetected
      cases scores with
      | nil => exact absurd rfl hne
      | cons hd tl =>
        simp only [List.isEmpty_cons, Bool.false_eq_true, if_false]
        rw [if_pos hpos, hts]
    constructor
    · rw [hpick, ← htp]
      exact htmem
    · intro p hp
      exact mem_le_foldl_max _ 0 p.2 (List.mem_map_of_mem Prod.snd hp)
  · intro h0
    unfold ExcelValidator.pickDetected
    cases scores with
    | nil => rfl
    | cons hd tl =>
      simp only [List.isEmpty_cons, Bool.false_eq_true, if_false]
      rw [if_neg (by omega)]

/-- C9 (amended): when the data carries neither a list-valued `fields` key
(short-circuit to `excel_form`) nor a list-valued `sections` key
(short-circuit to `excel_report`), `_detect_data_type` returns exactly the
spec's scoring pick: a type attaining the maximal (+2 sheet-name / +1
header) score when positive, `excel_table` otherwise. -/
theorem c9_detect_scoring_amended (d : List (String × Value)) (ns hs : List String)
    (t : String)
    (hext : ExcelValidator.extractNamesHeaders d = .ok (ns, hs))
    (hnf : (match alook d "fields" with | some v => v.isList | none => false) = false)
    (hns : (match alook d "sections" with | some v => v.isList | none => false) = false)
    (hdet : ExcelValidator.detectDataType d = .ok t) :
    t = ExcelValidator.specAutoDetect ns hs ∧
    (((ExcelValidator.typeScores ns hs).map Prod.snd).foldl max 0 > 0 →
      (t, ((ExcelValidator.typeScores ns hs).map Prod.snd).foldl max 0) ∈
        ExcelValidator.typeScores ns hs ∧
      ∀ p ∈ ExcelValidator.typeScores ns hs,
        p.2 ≤ ((ExcelValidator.typeScores ns hs).map Prod.snd).foldl max 0) ∧
    (((ExcelValidator.typeScores ns hs).map Prod.snd).foldl max 0 = 0 →
      t = "excel_table") := by
  have hne : ExcelValidator.typeScores ns hs ≠ [] := by
    simp [ExcelValidator.typeScores, ExcelValidator.dataTypePatterns]
  have ht : t = ExcelValidator.pickDetected (ExcelValidator.typeScores ns hs) := by
    unfold ExcelValidator.detectDataType at hdet
    rw [hext] at hdet
    simp only [Bind.bind, Except.bind, hnf, hns, Bool.false_eq_true, if_false,
      pure, Except.pure] at hdet
    exact (Except.ok.injEq _ _).mp hdet.symm
  obtain ⟨hq, h0⟩ := pickDetected_spec (ExcelValidator.typeScores ns hs) hne
  subst ht
  exact ⟨rfl, hq, h0⟩

/-- C9 witness: the amended scoring behaviour at a workbook whose only
signal is an `inventory` sheet name. -/
theorem c9_detect_scoring_witness :
    ("excel_inventory" : String) = ExcelValidator.specAutoDetect ["inventory"] [] :=
  (c9_detect_scoring_amended
    [("tables", .list [.dict [("sheet_name", .str "inventory")]])]
    ["inventory"] [] "excel_inventory" rfl rfl rfl rfl).1

/-- C9 counterexample: with a `fields` list present, the code returns
`excel_form` without scoring, while the claim's scoring procedure picks
`excel_inventory` (score 2 from the sheet name). -/
theorem c9_detect_scoring_counterexample :
    ExcelValidator.detectDataType detectCexData = .ok "excel_form" ∧
    ExcelValidator.extractNamesHeaders detectCexData = .ok (["inventory"], []) ∧
    ExcelValidator.specAutoDetect ["inventory"] [] = "excel_inventory" ∧
    ("excel_form" : String) ≠ "excel_inventory" :=
  ⟨rfl, rfl, rfl, by decide⟩

/- Helper lemmas for the validation engine (C1). -/

theorem runBasicValidation_checks_ne (data : Value) (dt : String)
    (tier : ExcelValidator.Tier) (e w : List String)
    (h : ExcelValidator.runBasicValidation data dt = .ok (tier, e, w)) :
    tier.checks ≠ [] := by
  unfold ExcelValidator.runBasicValidation at h
  obtain ⟨hasTables, h1, h⟩ := exbind_ok h
  obtain ⟨hasMetadata, h2, h⟩ := exbind_ok h
  obtain ⟨c4s, h3, h⟩ := exbind_ok h
  obtain ⟨c5s, h4, h⟩ := exbind_ok h
  simp only [pure, Except.pure, Except.ok.injEq, Prod.mk.injEq] at h
  obtain ⟨ht, _⟩ := h
  rw [← ht]
  simp

theorem runSchemaValidation_checks_ne (oracle : ExcelValidator.SchemaOracle)
    (data schemaV : Value) :
    (ExcelValidator.runSchemaValidation oracle data schemaV).1.checks ≠ [] := by
  unfold ExcelValidator.runSchemaValidation
  cases oracle data schemaV <;> simp

theorem validateExcelTable_checks_ne (data : Value) (b : Bool)
    (cs : List ExcelValidator.Check)
    (h : ExcelValidator.validateExcelTable data = .ok (b, cs)) : cs ≠ [] := by
  unfold ExcelValidator.validateExcelTable at h
  obtain ⟨tables, h1, h⟩ := exbind_ok h
  obtain ⟨tablesL, h2, h⟩ := exbind_ok h
  obtain ⟨perTable, h3, h⟩ := exbind_ok h
  obtain ⟨datas, h4, h⟩ := exbind_ok h
  simp only [pure, Except.pure, Except.ok.injEq, Prod.mk.injEq] at h
  obtain ⟨_, hcs⟩ := h
  rw [← hcs]
  simp

theorem validateExcelForm_checks_ne (data : Value) (b : Bool)
    (cs : List ExcelValidator.Check)
    (h : ExcelValidator.validateExcelForm data = .ok (b, cs)) : cs ≠ [] := by
  unfold ExcelValidator.validateExcelForm at h
  obtain ⟨fields, h1, h⟩ := exbind_ok h
  obtain ⟨rest, h2, h⟩ := exbind_ok h
  simp only [pure, Except.pure, Except.ok.injEq, Prod.mk.injEq] at h
  obtain ⟨_, hcs⟩ := h
  rw [← hcs]
  simp

theorem validateExcelReport_checks_ne (data : Value) (b : Bool)
    (cs : List ExcelValidator.Check)
    (h : ExcelValidator.validateExcelReport data = .ok (b, cs)) : cs ≠ [] := by
  unfold ExcelValidator.validateExcelReport at h
  obtain ⟨sections, h1, h⟩ := exbind_ok h
  obtain ⟨rest, h2, h⟩ := exbind_ok h
  simp only [pure, Except.pure, Except.ok.injEq, Prod.mk.injEq] at h
  obtain ⟨_, hcs⟩ := h
  rw [← hcs]
  simp

theorem validateExcelFinancial_checks_ne (data : Value) (b : Bool)
    (cs : List ExcelValidator.Check)
    (h : ExcelValidator.validateExcelFinancial data = .ok (b, cs)) : cs ≠ [] := by
  unfold ExcelValidator.validateExcelFinancial at h
  obtain ⟨tables, h1, h⟩ := exbind_ok h
  obtain ⟨rest, h2, h⟩ := exbind_ok h
  simp only [pure, Except.pure, Except.ok.injEq, Prod.mk.injEq] at h
  obtain ⟨_, hcs⟩ := h
  rw [← hcs]
  simp

theorem validateExcelInventory_checks_ne (data : Value) (b : Bool)
    (cs : List ExcelValidator.Check)
    (h : ExcelValidator.validateExcelInventory data = .ok (b, cs)) : cs ≠ [] := by
  unfold ExcelValidator.validateExcelInventory at h
  obtain ⟨tables, h1, h⟩ := exbind_ok h
  obtain ⟨rest, h2, h⟩ := exbind_ok h
  simp only [pure, Except.pure, Except.ok.injEq, Prod.mk.injEq] at h
  obtain ⟨_, hcs⟩ := h
  rw [← hcs]
  simp

theorem validateExcelTimesheet_checks_ne (data : Value) (b : Bool)
    (cs : List ExcelValidator.Check)
    (h : ExcelValidator.validateExcelTimesheet data = .ok (b, cs)) : cs ≠ [] := by
  unfold ExcelValidator.validateExcelTimesheet at h
  obtain ⟨tables, h1, h⟩ := exbind_ok h
  obtain ⟨rest, h2, h⟩ := exbind_ok h
  simp only [pure, Except.pure, Except.ok.injEq, Prod.mk.injEq] at h
  obtain ⟨_, hcs⟩ := h
  rw [← hcs]
  simp

theorem runCustomValidation_checks_ne (data : Value) (dt : String)
    (tier : ExcelValidator.Tier) (e w : List String)
    (h : ExcelValidator.runCustomValidation data dt = .ok (tier, e, w)) :
    tier.checks ≠ [] := by
  unfold ExcelValidator.runCustomValidation at h
  cases hr : ExcelValidator.customRuleFor dt with
  | none =>
    rw [hr] at h
    simp only [pure, Except.pure, Except.ok.injEq, Prod.mk.injEq] at h
    obtain ⟨ht, _⟩ := h
    rw [← ht]
    simp
  | some f =>
    rw [hr] at h
    obtain ⟨r, h1, h⟩ := exbind_ok h
    simp only [pure, Except.pure, Except.ok.injEq, Prod.mk.injEq] at h
    obtain ⟨ht, _⟩ := h
    rw [← ht]
    obtain ⟨b, cs⟩ := r
    show cs ≠ []
    unfold ExcelValidator.customRuleFor at hr
    split at hr
    · cases hr; exact validateExcelTable_checks_ne data b cs h1
    · split at hr
      · cases hr; exact validateExcelForm_checks_ne data b cs h1
      · split at hr
        · cases hr; exact validateExcelReport_checks_ne data b cs h1
        · split at hr
          · cases hr; exact validateExcelFinancial_checks_ne data b cs h1
          · split at hr
            · cases hr; exact validateExcelInventory_checks_ne data b cs h1
            · split at hr
              · cases hr; exact validateExcelTimesheet_checks_ne data b cs h1
              · cases hr

/-- C1 (amended): at `basic`, overall validity is the basic tier alone and
the schema/custom tiers are not executed; at `standard` and `custom` the
run stops as soon as the basic tier fails — the schema and custom tiers
are *not* executed then; when basic passes, `standard` validity is
basic AND schema (custom not executed) and `custom` validity is basic AND
schema AND custom; only `strict` runs all three tiers unconditionally,
populating all three check lists, with overall validity basic AND schema
AND custom. -/
theorem c1_tier_execution_amended (oracle : ExcelValidator.SchemaOracle) (data : Value)
    (schemaArg : Option Value) (lvl : String) (v : Bool) (r : ExcelValidator.VResults)
    (d' : Value)
    (h : ExcelValidator.validate oracle data schemaArg lvl = .ok v r d') :
    v = r.valid ∧
    (ExcelValidator.parseLevel lvl = "basic" →
      v = r.basic.valid ∧ r.schema.checks = [] ∧ r.custom.checks = []) ∧
    ((ExcelValidator.parseLevel lvl = "standard" ∨ ExcelValidator.parseLevel lvl = "custom") →
      r.basic.valid = false → v = false ∧ r.schema.checks = [] ∧ r.custom.checks = []) ∧
    (ExcelValidator.parseLevel lvl = "strict" →
      r.basic.checks ≠ [] ∧ r.schema.checks ≠ [] ∧ r.custom.checks ≠ [] ∧
      v = (r.basic.valid && r.schema.valid && r.custom.valid)) ∧
    (ExcelValidator.parseLevel lvl = "standard" → r.basic.valid = true →
      v = (r.basic.valid && r.schema.valid) ∧ r.custom.checks = []) ∧
    (ExcelValidator.parseLevel lvl = "custom" → r.basic.valid = true →
      v = (r.basic.valid && r.schema.valid && r.custom.valid)) := by
  unfold ExcelValidator.validate at h
  split at h
  · rename_i trip hE
    cases h
    unfold ExcelValidator.validateE at hE
    dsimp only at hE
    split at hE
    · cases hE
    · rename_i data1 dataType heqDet
      split at hE
      · cases hE
      · rename_i sv heqSch
        split at hE
        · cases hE
        · rename_i bt eB wB heqBas
          split at hE
          · rename_i hg
            cases hE
            simp only [Bool.and_eq_true, Bool.not_eq_true'] at hg
            obtain ⟨hbv, hlv⟩ := hg
            refine ⟨rfl, ?_, ?_, ?_, ?_, ?_⟩
            · intro _
              exact ⟨hbv.symm, rfl, rfl⟩
            · intro _ _
              exact ⟨rfl, rfl, rfl⟩
            · intro hl
              rw [hl] at hlv
              simp at hlv
            · intro _ hbt
              have hbt' : bt.valid = true := hbt
              simp [hbt'] at hbv
            · intro _ hbt
              have hbt' : bt.valid = true := hbt
              simp [hbt'] at hbv
          · rename_i hg
            split at hE
            · cases hE
            · rename_i ct eC wC hcust
              cases hE
              have hbasic_ne := runBasicValidation_checks_ne _ _ _ _ _ heqBas
              refine ⟨rfl, ?_, ?_, ?_, ?_, ?_⟩
              · intro hl
                rw [hl]
                refine ⟨?_, rfl, rfl⟩
                show (bt.valid && true && true) = bt.valid
                simp
              · intro hl hbf
                have hbf' : bt.valid = false := hbf
                rcases hl with hl | hl <;>
                  (rw [hl, hbf'] at hg; exact absurd hg (by decide))
              · intro hl
                rw [hl] at hcust ⊢
                rw [if_pos (by decide)] at hcust
                refine ⟨hbasic_ne, ?_, ?_, rfl⟩
                · exact runSchemaValidation_checks_ne oracle data1 sv
                · exact runCustomValidation_checks_ne data1 dataType ct eC wC hcust
              · intro hl hbt
                rw [hl]
                refine ⟨?_, rfl⟩
                show (bt.valid &&
                  (ExcelValidator.runSchemaValidation oracle data1 sv).1.valid && true) =
                  (bt.valid && (ExcelValidator.runSchemaValidation oracle data1 sv).1.valid)
                simp
              · intro hl hbt
                rw [hl]
                rfl
  · rename_i e hE
    cases h

/-- C1 witness: the amended behaviour at level `basic` on a concrete input
(schema and custom tiers unexecuted, validity equal to the basic tier). -/
theorem c1_tier_execution_witness :
    ExcelValidator.outValid
        (ExcelValidator.validate ExcelValidator.oracleTrue (.dict []) none "basic") =
      (ExcelValidator.outResults
        (ExcelValidator.validate ExcelValidator.oracleTrue (.dict []) none "basic")).basic.valid ∧
    (ExcelValidator.outResults
        (ExcelValidator.validate ExcelValidator.oracleTrue (.dict []) none "basic")).schema.checks
      = [] ∧
    (ExcelValidator.outResults
        (ExcelValidator.validate ExcelValidator.oracleTrue (.dict []) none "basic")).custom.checks
      = [] :=
  (c1_tier_execution_amended ExcelValidator.oracleTrue (.dict []) none "basic"
    _ _ _ rfl).2.1 rfl

/-- C1 counterexample: at level `standard` on `{}` the basic tier fails and
the schema tier is *not* executed (checks stay empty), contradicting the
claim's "schema tier still runs even when the basic tier failed"; likewise
at level `custom` the custom tier is not executed when basic failed,
contradicting "all three tiers execute unconditionally". -/
theorem c1_tier_execution_counterexample :
    (ExcelValidator.outResults
        (ExcelValidator.validate ExcelValidator.oracleTrue (.dict []) none "standard")).basic.valid
      = false ∧
    (ExcelValidator.outResults
        (ExcelValidator.validate ExcelValidator.oracleTrue (.dict []) none "standard")).schema.checks
      = [] ∧
    (ExcelValidator.outResults
        (ExcelValidator.validate ExcelValidator.oracleTrue (.dict []) none "custom")).basic.valid
      = false ∧
    (ExcelValidator.outResults
        (ExcelValidator.validate ExcelValidator.oracleTrue (.dict []) none "custom")).custom.checks
      = [] :=
  ⟨rfl, rfl, rfl, rfl⟩

/- Helper lemmas for auto-detection and mutation (C9/C10). -/

theorem pickDetected_mem (scores : List (String × Nat)) :
    ExcelValidator.pickDetected scores = "excel_table" ∨
    ∃ p ∈ scores, ExcelValidator.pickDetected scores = p.1 := by
  unfold ExcelValidator.pickDetected
  split
  · exact Or.inl rfl
  · dsimp only
    split
    · split
      · rename_i ts hts
        exact Or.inr ⟨ts, List.mem_of_find?_eq_some hts, rfl⟩
      · exact Or.inl rfl
    · exact Or.inl rfl

theorem detectDataType_supported (d : List (String × Value)) (t : String)
    (h : ExcelValidator.detectDataType d = .ok t) :
    t ∈ ExcelValidator.SUPPORTED_DATA_TYPES := by
  unfold ExcelValidator.detectDataType at h
  obtain ⟨nh, h1, h⟩ := exbind_ok h
  obtain ⟨ns, hs⟩ := nh
  dsimp only at h
  split at h
  · injection h with h2
    rw [← h2]
    decide
  · split at h
    · injection h with h2
      rw [← h2]
      decide
    · injection h with h2
      rw [← h2]
      rcases pickDetected_mem (ExcelValidator.typeScores ns hs) with hp | ⟨p, hp, he⟩
      · rw [hp]; decide
      · rw [he]
        unfold ExcelValidator.typeScores at hp
        rcases List.mem_map.mp hp with ⟨tp, htp, hpe⟩
        rw [← hpe]
        simp only [ExcelValidator.dataTypePatterns, List.mem_cons, List.mem_singleton,
          List.not_mem_nil, or_false] at htp
        rcases htp with h5 | h5 | h5 | h5 | h5 <;> subst h5 <;> dsimp only <;> decide

theorem supported_str_cond (t : String) (ht : t ∈ ExcelValidator.SUPPORTED_DATA_TYPES) :
    ((Value.str t).truthy && ExcelValidator.SUPPORTED_DATA_TYPES.contains t) = true := by
  simp only [ExcelValidator.SUPPORTED_DATA_TYPES, List.mem_cons, List.mem_singleton,
    List.not_mem_nil, or_false] at ht
  rcases ht with h | h | h | h | h | h <;> subst h <;> decide

theorem detectAndSet_needs (data data1 : Value) (t : String)
    (hd : ExcelValidator.detectAndSet data = .ok (data1, t))
    (hneed : needsDetect data = true) :
    pathDT data1 = some (.str t) ∧
    t ∈ ExcelValidator.SUPPORTED_DATA_TYPES ∧
    pathDT data ≠ some (.str t) := by
  cases data with
  | null => simp [needsDetect] at hneed
  | bool b => simp [needsDetect] at hneed
  | int n => simp [needsDetect] at hneed
  | num f => simp [needsDetect] at hneed
  | str s => simp [needsDetect] at hneed
  | list xs => simp [needsDetect] at hneed
  | dict d =>
    unfold ExcelValidator.detectAndSet at hd
    obtain ⟨metadata, h1, hd⟩ := exbind_ok hd
    simp only [pyGetD, Except.ok.injEq] at h1
    obtain ⟨dtOpt, h2, hd⟩ := exbind_ok hd
    cases hm : alook d "metadata" with
    | none =>
      rw [hm] at h1
      simp only [Option.getD] at h1
      subst h1
      simp only [pyGetOpt, alook, Except.ok.injEq] at h2
      subst h2
      dsimp only at hd
      obtain ⟨t0, h3, hd⟩ := exbind_ok hd
      simp only [hm, Option.isNone_none, eq_self_iff_true, if_true, alook_aset_self,
        pure, Except.pure, Except.ok.injEq, Prod.mk.injEq] at hd
      obtain ⟨hda, hdt⟩ := hd
      subst hda hdt
      refine ⟨?_, detectDataType_supported d t0 h3, ?_⟩
      · simp [pathDT, alook_aset_self]
      · simp [pathDT, hm]
    | some mv =>
      rw [hm] at h1
      simp only [Option.getD] at h1
      subst h1
      cases mv with
      | dict m =>
        simp only [pyGetOpt, Except.ok.injEq] at h2
        cases hmm : alook m "document_type" with
        | none =>
          rw [hmm] at h2
          subst h2
          dsimp only at hd
          obtain ⟨t0, h3, hd⟩ := exbind_ok hd
          simp only [hm, Option.isNone_some, Bool.false_eq_true, if_false,
            pure, Except.pure, Except.ok.injEq, Prod.mk.injEq] at hd
          obtain ⟨hda, hdt⟩ := hd
          subst hda hdt
          refine ⟨?_, detectDataType_supported d t0 h3, ?_⟩
          · simp [pathDT, alook_aset_self]
          · simp [pathDT, hm, hmm]
        | some v =>
          rw [hmm] at h2
          simp only [needsDetect, hm, hmm] at hneed
          cases v with
          | str s =>
            subst h2
            rw [Bool.not_eq_true'] at hneed
            have hneed2 : ((Value.str s).truthy &&
                ExcelValidator.SUPPORTED_DATA_TYPES.contains s) = false := hneed
            dsimp only at hd
            rw [hneed2] at hd
            obtain ⟨t0, h3, hd⟩ := exbind_ok hd
            simp only [hm, Option.isNone_some, Bool.false_eq_true, if_false,
              pure, Except.pure, Except.ok.injEq, Prod.mk.injEq] at hd
            obtain ⟨hda, hdt⟩ := hd
            subst hda hdt
            have hsup := detectDataType_supported d _ h3
            refine ⟨?_, hsup, ?_⟩
            · simp [pathDT, alook_aset_self]
            · simp only [pathDT, hm, hmm]
              intro heq
              injection heq with he
              injection he with he2
              subst he2
              have hc := supported_str_cond _ hsup
              rw [hneed2] at hc
              cases hc
          | null =>
            subst h2
            dsimp only at hd
            obtain ⟨t0, h3, hd⟩ := exbind_ok hd
            simp only [hm, Option.isNone_some, Bool.false_eq_true, if_false,
              pure, Except.pure, Except.ok.injEq, Prod.mk.injEq] at hd
            obtain ⟨hda, hdt⟩ := hd
            subst hda hdt
            refine ⟨?_, detectDataType_supported d t0 h3, ?_⟩
            · simp [pathDT, alook_aset_self]
            · simp [pathDT, hm, hmm]
          | bool b =>
            subst h2
            dsimp only at hd
            obtain ⟨t0, h3, hd⟩ := exbind_ok hd
            simp only [hm, Option.isNone_some, Bool.false_eq_true, if_false,
              pure, Except.pure, Except.ok.injEq, Prod.mk.injEq] at hd
            obtain ⟨hda, hdt⟩ := hd
            subst hda hdt
            refine ⟨?_, detectDataType_supported d t0 h3, ?_⟩
            · simp [pathDT, alook_aset_self]
            · simp [pathDT, hm, hmm]
          | int n =>
            subst h2
            dsimp only at hd
            obtain ⟨t0, h3, hd⟩ := exbind_ok hd
            simp only [hm, Option.isNone_some, Bool.false_eq_true, if_false,
              pure, Except.pure, Except.ok.injEq, Prod.mk.injEq] at hd
            obtain ⟨hda, hdt⟩ := hd
            subst hda hdt
            refine ⟨?_, detectDataType_supported d t0 h3, ?_⟩
            · simp [pathDT, alook_aset_self]
            · simp [pathDT, hm, hmm]
          | num f =>
            subst h2
            dsimp only at hd
            obtain ⟨t0, h3, hd⟩ := exbind_ok hd
            simp only [hm, Option.isNone_some, Bool.false_eq_true, if_false,
              pure, Except.pure, Except.ok.injEq, Prod.mk.injEq] at hd
            obtain ⟨hda, hdt⟩ := hd
            subst hda hdt
            refine ⟨?_, detectDataType_supported d t0 h3, ?_⟩
            · simp [pathDT, alook_aset_self]
            · simp [pathDT, hm, hmm]
          | list xs =>
            subst h2
            dsimp only at hd
            obtain ⟨t0, h3, hd⟩ := exbind_ok hd
            simp only [hm, Option.isNone_some, Bool.false_eq_true, if_false,
              pure, Except.pure, Except.ok.injEq, Prod.mk.injEq] at hd
            obtain ⟨hda, hdt⟩ := hd
            subst hda hdt
            refine ⟨?_, detectDataType_supported d t0 h3, ?_⟩
            · simp [pathDT, alook_aset_self]
            · simp [pathDT, hm, hmm]
          | dict dd =>
            subst h2
            dsimp only at hd
            obtain ⟨t0, h3, hd⟩ := exbind_ok hd
            simp only [hm, Option.isNone_some, Bool.false_eq_true, if_false,
              pure, Except.pure, Except.ok.injEq, Prod.mk.injEq] at hd
            obtain ⟨hda, hdt⟩ := hd
            subst hda hdt
            refine ⟨?_, detectDataType_supported d t0 h3, ?_⟩
            · simp [pathDT, alook_aset_self]
            · simp [pathDT, hm, hmm]
      | null => simp [needsDetect, hm] at hneed
      | bool b => simp [needsDetect, hm] at hneed
      | int n => simp [needsDetect, hm] at hneed
      | num f => simp [needsDetect, hm] at hneed
      | str s2 => simp [needsDetect, hm] at hneed
      | list xs => simp [needsDetect, hm] at hneed

/-- C10 (confirmed): when `metadata.document_type` is absent, falsy or
unsupported, a successful `validate` call writes the auto-detected
supported type into the caller's `data["metadata"]["document_type"]`
(creating `metadata` when missing), so the data object after the call
differs from the input at that path. -/
theorem c10_validate_mutates_input (oracle : ExcelValidator.SchemaOracle) (data : Value)
    (schemaArg : Option Value) (lvl : String) (v : Bool) (r : ExcelValidator.VResults)
    (d' : Value)
    (h : ExcelValidator.validate oracle data schemaArg lvl = .ok v r d')
    (hneed : needsDetect data = true) :
    pathDT d' = some (.str r.dataType) ∧
    r.dataType ∈ ExcelValidator.SUPPORTED_DATA_TYPES ∧
    pathDT data ≠ pathDT d' := by
  unfold ExcelValidator.validate at h
  split at h
  · rename_i trip hE
    cases h
    unfold ExcelValidator.validateE at hE
    dsimp only at hE
    split at hE
    · cases hE
    · rename_i data1 dataType heqDet
      obtain ⟨hp, hsup, hne⟩ := detectAndSet_needs data data1 dataType heqDet hneed
      split at hE
      · cases hE
      · rename_i sv heqSch
        split at hE
        · cases hE
        · rename_i bt eB wB heqBas
          split at hE
          · rename_i hg
            cases hE
            exact ⟨hp, hsup, fun heq => hne (by rw [hp] at heq; exact heq)⟩
          · rename_i hg
            split at hE
            · cases hE
            · rename_i ct eC wC hcust
              cases hE
              exact ⟨hp, hsup, fun heq => hne (by rw [hp] at heq; exact heq)⟩
  · rename_i e hE
    cases h

/-- C10 witness: the mutation observed on the concrete input `{}`. -/
theorem c10_validate_mutates_input_witness :
    pathDT (ExcelValidator.outData
        (ExcelValidator.validate ExcelValidator.oracleTrue (.dict []) none "standard")) =
      some (.str (ExcelValidator.outResults
        (ExcelValidator.validate ExcelValidator.oracleTrue (.dict []) none "standard")).dataType) ∧
    pathDT (Value.dict []) ≠ pathDT (ExcelValidator.outData
        (ExcelValidator.validate ExcelValidator.oracleTrue (.dict []) none "standard")) := by
  have h := c10_validate_mutates_input ExcelValidator.oracleTrue (.dict []) none "standard"
    _ _ _ rfl rfl
  exact ⟨h.1, h.2.2⟩
